import Mathlib

/-!
Verification of the baseline crash-risk calculator of the Safety1st
repository (`backend/src/modeling/calculator.py`) against its
natural-language specification.

The Python module is numeric code over IEEE floats.  We embed it over the
real numbers: `math.exp`, `math.log`, `math.sin`, `math.erf` become their
Mathlib counterparts, `numpy` arrays become lists of reals, Python's `**`
with a real exponent becomes `Real.rpow`, and Python's `int(...)` on a
positive float becomes `Int.toNat ∘ Int.floor`.  A `KeyError` raised by a
dictionary lookup is modelled by `Option` (`none` = the evaluation aborts).
-/

open Real

noncomputable section

namespace Safety1st

/-- Physical constant `GRAVITY = 9.80665` from the source. -/
def GRAVITY : ℝ := 9.80665

/-- `REFERENCE_BODY_MASS = 75.0`. -/
def REFERENCE_BODY_MASS : ℝ := 75.0

/-- `REFERENCE_HEIGHT = 1.75`. -/
def REFERENCE_HEIGHT : ℝ := 1.75

/-- `REFERENCE_HEAD_MASS = 4.75`. -/
def REFERENCE_HEAD_MASS : ℝ := 4.75

/-- `REFERENCE_TORSO_MASS = 35.0`. -/
def REFERENCE_TORSO_MASS : ℝ := 35.0

/-- `REFERENCE_LEG_MASS = 10.0`. -/
def REFERENCE_LEG_MASS : ℝ := 10.0

/-- `REFERENCE_NECK_LEVER_ARM = 0.125`. -/
def REFERENCE_NECK_LEVER_ARM : ℝ := 0.125

/-- `HEAD_MASS_FRACTION = REFERENCE_HEAD_MASS / REFERENCE_BODY_MASS`. -/
def HEAD_MASS_FRACTION : ℝ := REFERENCE_HEAD_MASS / REFERENCE_BODY_MASS

/-- `TORSO_MASS_FRACTION = REFERENCE_TORSO_MASS / REFERENCE_BODY_MASS`. -/
def TORSO_MASS_FRACTION : ℝ := REFERENCE_TORSO_MASS / REFERENCE_BODY_MASS

/-- `LEG_MASS_FRACTION = REFERENCE_LEG_MASS / REFERENCE_BODY_MASS`. -/
def LEG_MASS_FRACTION : ℝ := REFERENCE_LEG_MASS / REFERENCE_BODY_MASS

/-- `DEFAULT_BELT_STIFFNESS = 50000.0` (N/m). -/
def DEFAULT_BELT_STIFFNESS : ℝ := 50000.0

/-- `DEFAULT_INJURY_CORRELATION_FACTOR = 0.75`. -/
def DEFAULT_INJURY_CORRELATION_FACTOR : ℝ := 0.75

/-- Python's `str.lower`, for the ASCII option strings this module uses:
lowercase every character of the string.  (Core's `String.toLower` is
implemented with an internal recursion that the kernel cannot reduce, so
we map over the character data directly.) -/
def strLower (s : String) : String := ⟨s.data.map Char.toLower⟩

/-- Input record of one evaluation, mirroring the constructor arguments of
the Python class `CrashInputs` together with their default values.  The
optional biomechanical overrides (`torso_length`, `neck_k_override`,
`neck_c_override`, `head_mass`, `torso_mass`, `leg_mass`,
`neck_lever_arm`), which default to `None` in the source, are modelled by
`Option ℝ`.  `neck_damping` models the constructor argument
`neck_damping_ratio`. -/
structure CrashInputs where
  impact_speed : ℝ
  vehicle_mass : ℝ
  crash_side : String
  coefficient_restitution : ℝ := 0.0
  occupant_mass : ℝ := 75.0
  occupant_height : ℝ := 1.75
  gender : String := "female"
  is_pregnant : Bool := false
  seat_distance_from_wheel : ℝ := 0.30
  seat_recline_angle : ℝ := 25.0
  seat_height_relative_to_dash : ℝ := 0.0
  torso_length : Option ℝ := none
  neck_strength : String := "average"
  seat_position : String := "driver"
  pelvis_lap_belt_fit : String := "average"
  neck_nat_freq_hz : ℝ := 10.0
  neck_damping : ℝ := 0.20
  neck_k_override : Option ℝ := none
  neck_c_override : Option ℝ := none
  injury_correlation_factor : ℝ := DEFAULT_INJURY_CORRELATION_FACTOR
  seatbelt_used : Bool := true
  seatbelt_pretensioner : Bool := false
  seatbelt_load_limiter : Bool := false
  front_airbag : Bool := true
  side_airbag : Bool := false
  crumple_zone_length : ℝ := 0.5
  cabin_rigidity : String := "medium"
  intrusion : ℝ := 0.0
  head_mass : Option ℝ := none
  torso_mass : Option ℝ := none
  leg_mass : Option ℝ := none
  neck_lever_arm : Option ℝ := none

namespace CrashInputs

/-- `self.crash_side = crash_side.lower()` in `__init__`. -/
def crashSide (inp : CrashInputs) : String := strLower inp.crash_side

/-- `_calculate_head_mass`: `occupant_mass * HEAD_MASS_FRACTION`, times
`0.95` for `gender == "female"`; overridden by the `head_mass` argument
when that is not `None`. -/
def headMass (inp : CrashInputs) : ℝ :=
  inp.head_mass.getD
    (if strLower inp.gender = "female" then
      inp.occupant_mass * HEAD_MASS_FRACTION * 0.95
    else inp.occupant_mass * HEAD_MASS_FRACTION)

/-- `_calculate_torso_mass`: `occupant_mass * TORSO_MASS_FRACTION`, times
`1.15` when pregnant; overridable. -/
def torsoMass (inp : CrashInputs) : ℝ :=
  inp.torso_mass.getD
    (if inp.is_pregnant then inp.occupant_mass * TORSO_MASS_FRACTION * 1.15
    else inp.occupant_mass * TORSO_MASS_FRACTION)

/-- `_calculate_leg_mass`: `occupant_mass * LEG_MASS_FRACTION`; overridable. -/
def legMass (inp : CrashInputs) : ℝ :=
  inp.leg_mass.getD (inp.occupant_mass * LEG_MASS_FRACTION)

/-- `_calculate_neck_lever_arm`: reference lever arm scaled by height. -/
def neckLeverArm (inp : CrashInputs) : ℝ :=
  inp.neck_lever_arm.getD
    (REFERENCE_NECK_LEVER_ARM * (inp.occupant_height / REFERENCE_HEIGHT))

end CrashInputs

/-- `PULSE_DURATIONS.get(crash_side, 0.10)`: frontal 0.10 s, side 0.07 s,
rear 0.09 s, anything else 0.10 s. -/
def pulseDurationFor (side : String) : ℝ :=
  if side = "frontal" then 0.10
  else if side = "side" then 0.07
  else if side = "rear" then 0.09
  else 0.10

/-- `_get_pulse_duration`. -/
def pulseDuration (inp : CrashInputs) : ℝ := pulseDurationFor inp.crashSide

/-- `_compute_delta_v`: `(1 + e) * v0`. -/
def deltaV (inp : CrashInputs) : ℝ :=
  (1 + inp.coefficient_restitution) * inp.impact_speed

/-- `_compute_peak_acceleration`: `(pi / 2) * (delta_v / T)`. -/
def peakAcceleration (delta_v T : ℝ) : ℝ := (π / 2) * (delta_v / T)

/-- `n_samples = max(2, int(T * sample_rate))` in `_generate_crash_pulse`. -/
def nSamples (T : ℝ) (sample_rate : ℕ) : ℕ :=
  max 2 (Int.toNat ⌊T * (sample_rate : ℝ)⌋)

/-- `np.linspace(0, T, n)`: `n` equally spaced samples from 0 to `T`. -/
def linspace (T : ℝ) (n : ℕ) : List ℝ :=
  (List.range n).map fun i : ℕ => (i : ℝ) * T / ((n : ℝ) - 1)

/-- The vehicle half-sine pulse of `_generate_crash_pulse`:
`a_vehicle = a_peak * sin(pi * t / T)` over the sample grid. -/
def crashPulse (a_peak T : ℝ) (n : ℕ) : List ℝ :=
  (linspace T n).map fun t => a_peak * Real.sin (π * t / T)

/-- `_get_restraint_transfer_factor`: base factor 0.55 (belt and relevant
airbag), 0.75 (belt only) or 1.05 (unbelted), then `*= 0.95` for a
pretensioner and `*= 0.98` for a load limiter. -/
def restraintTransferFactor (inp : CrashInputs) : ℝ :=
  let has_airbag :=
    if inp.crashSide = "frontal" then inp.front_airbag else inp.side_airbag
  let alpha :=
    if inp.seatbelt_used && has_airbag then 0.55
    else if inp.seatbelt_used then 0.75
    else 1.05
  alpha * (if inp.seatbelt_pretensioner then 0.95 else 1)
    * (if inp.seatbelt_load_limiter then 0.98 else 1)

/-- `np.max` of a nonempty array (0 for the empty list, which the source
never hits: the pulse always has at least 2 samples). -/
def npMax : List ℝ → ℝ
  | [] => 0
  | x :: xs => xs.foldl max x

/-- `_compute_hic15`, translated loop for loop.  `a_g[i:j]` is the Python
slice from `i` inclusive to `j` exclusive, and `hic_value = duration *
avg_a ** 2.5` uses the real power.  The running maximum update
`if hic_value > hic_max` is kept as the conditional. -/
def hic15 (time_array a_g : List ℝ) : ℝ :=
  let dt := time_array.getD 1 0 - time_array.getD 0 0
  if dt ≤ 0 then 0
  else
    let mws := max 2 (Int.toNat ⌊0.015 / dt⌋)
    (List.range (a_g.length - 1)).foldl
      (fun hm i =>
        (List.range' (i + 1) (min (i + mws) (a_g.length - 1) - i)).foldl
          (fun hm j =>
            let dur := time_array.getD j 0 - time_array.getD i 0
            if dur ≤ 0 ∨ 0.015 < dur then hm
            else
              let w := j - i
              let avg := ((a_g.drop i).take w).sum / (w : ℝ)
              let v := dur * avg ^ (2.5 : ℝ)
              if hm < v then v else hm)
          hm)
      0

/-- `strength_multipliers.get(neck_strength, 1.0)` in `_compute_nij`. -/
def neckStrengthMult (s : String) : ℝ :=
  if s = "weak" then 1.3
  else if s = "average" then 1.0
  else if s = "strong" then 0.85
  else 1.0

/-- `NECK_INTERCEPTS_MODES`: the four tension/compression ×
flexion/extension modes currently all share the same
`(F_int, M_int) = (4287.0, 155.0)` pair. -/
def NECK_INTERCEPTS_MODES (mode : String) : ℝ × ℝ :=
  if mode = "tension_flexion" then (4287.0, 155.0)
  else if mode = "tension_extension" then (4287.0, 155.0)
  else if mode = "compression_flexion" then (4287.0, 155.0)
  else (4287.0, 155.0)

/-- One semi-implicit Euler step of the head–neck SDOF model in
`_compute_nij`, acting on the state `(x, v, nij_peak)`. -/
def nijStep (m k c dt lever_arm recline_factor sm : ℝ)
    (st : ℝ × ℝ × ℝ) (ai : ℝ) : ℝ × ℝ × ℝ :=
  let xdd := -(c * st.2.1 + k * st.1) / m - ai
  let v2 := st.2.1 + xdd * dt
  let x2 := st.1 + v2 * dt
  let Fz := k * x2 + c * v2
  let My := Fz * lever_arm * recline_factor
  let mode :=
    if 0 ≤ Fz ∧ 0 ≤ My then "tension_flexion"
    else if 0 ≤ Fz then "tension_extension"
    else if 0 ≤ My then "compression_flexion"
    else "compression_extension"
  let FM := NECK_INTERCEPTS_MODES mode
  let nij_t := (Fz / FM.1 + My / FM.2) * sm
  (x2, v2, if st.2.2 < nij_t then nij_t else st.2.2)

/-- `_compute_nij`: peak of the mode-aware Nij proxy over the occupant
acceleration time history, driven through the spring–damper model. -/
def computeNij (inp : CrashInputs) (t a : List ℝ) : ℝ :=
  if t.length < 2 then 0
  else
    let dt := t.getD 1 0 - t.getD 0 0
    if dt ≤ 0 then 0
    else
      let m := inp.headMass
      let k :=
        match inp.neck_k_override with
        | some kv => kv
        | none => m * (2 * π * max 0.1 inp.neck_nat_freq_hz) ^ 2
      let c :=
        match inp.neck_c_override with
        | some cv => cv
        | none => 2 * max 0 inp.neck_damping * Real.sqrt (max 1e-9 (k * m))
      let lever_arm := inp.neckLeverArm
      let recline_factor := 1 + inp.seat_recline_angle / 100
      let sm := neckStrengthMult (strLower inp.neck_strength)
      (a.foldl (nijStep m k c dt lever_arm recline_factor sm) (0, 0, 0)).2.2

/-- `_compute_chest_a3ms`: maximum 3 ms-window average of `a_g`. -/
def chestA3ms (time_array a_g : List ℝ) : ℝ :=
  let dt := time_array.getD 1 0 - time_array.getD 0 0
  if dt ≤ 0 then 0
  else
    let ws := max 1 (Int.toNat ⌊0.003 / dt⌋)
    (List.range (a_g.length - ws)).foldl
      (fun m i =>
        let avg := ((a_g.drop i).take ws).sum / (ws : ℝ)
        if m < avg then avg else m)
      0

/-- `_compute_chest_deflection`: `gamma` starts at 0.8, `*= 0.7` when a
front airbag is present in a frontal crash, and in that same branch is
scaled by 1.3 when the seat is closer than 0.15 m to the wheel or by 1.2
when farther than 0.50 m; then `x = gamma * torso_mass * a_occ_peak /
k_belt`, times 1.1 when pregnant. -/
def computeChestDeflection (inp : CrashInputs) (a_occ_peak : ℝ) : ℝ :=
  let gamma :=
    if inp.front_airbag ∧ inp.crashSide = "frontal" then
      0.8 * 0.7 *
        (if inp.seat_distance_from_wheel < 0.15 then 1.3
        else if 0.50 < inp.seat_distance_from_wheel then 1.2
        else 1)
    else 0.8
  let x_chest := gamma * (inp.torsoMass * a_occ_peak) / DEFAULT_BELT_STIFFNESS
  if inp.is_pregnant then x_chest * 1.1 else x_chest

/-- `_compute_femur_load`: `leg_mass * a_occ_peak * pelvis_factor *
position_factor`. -/
def computeFemurLoad (inp : CrashInputs) (a_occ_peak : ℝ) : ℝ :=
  let pelvis_factor :=
    if strLower inp.pelvis_lap_belt_fit = "poor" then 1.25
    else if strLower inp.pelvis_lap_belt_fit = "average" then 1.0
    else if strLower inp.pelvis_lap_belt_fit = "good" then 0.85
    else 1.0
  let position_factor :=
    if strLower inp.seat_position = "passenger" then 1.05 else 1.0
  inp.legMass * a_occ_peak * pelvis_factor * position_factor

/-- The mathematical error function: `math.erf` of the source.  (It is
only ever applied through `_normal_cdf` inside the unclamped probit
branch, which no theorem below needs to evaluate numerically.) -/
def erf (x : ℝ) : ℝ :=
  (2 / Real.sqrt π) * ∫ s in (0 : ℝ)..x, Real.exp (-(s ^ 2))

/-- `_normal_cdf`: `0.5 * (1 + erf(x / sqrt 2))`. -/
def normalCdf (x : ℝ) : ℝ := 0.5 * (1 + erf (x / Real.sqrt 2))

/-- The three calibration forms a `RISK_CURVES` entry can take
(probit-on-log, logistic regression, legacy X50/k). -/
inductive CurveForm
  | probitLognormal (mu sigma : ℝ)
  | logistic (beta0 beta1 : ℝ)
  | legacy (X50 k : ℝ)

/-- The dispatch arithmetic of `BaselineRiskCalculator._risk` once the
curve parameters are known: probit-on-log with the `z` clamp at ±8,
logistic with the `z` clamp at ±50, legacy X50/k with the exponent clamp
at ±50. -/
def riskOfForm : CurveForm → ℝ → ℝ
  | .probitLognormal mu sigma, value =>
    if value ≤ 0 then 0
    else
      let z := (Real.log value - mu) / sigma
      if 8 < z then 1
      else if z < -8 then 0
      else normalCdf z
  | .logistic beta0 beta1, value =>
    let z := beta0 + beta1 * value
    if 50 < z then 1
    else if z < -50 then 0
    else 1 / (1 + Real.exp (-z))
  | .legacy X50 k, value =>
    let e := -k * (value - X50)
    if 50 < e then 0
    else if e < -50 then 1
    else 1 / (1 + Real.exp e)

/-- The `head_HIC15_AIS3plus_probit` entry of `RISK_CURVES`. -/
def headCurve : CurveForm := .probitLognormal 7.45231 0.73998

/-- The `neck_Nij_AIS3plus` entry of `RISK_CURVES`. -/
def neckCurve : CurveForm := .logistic (-3.227) 1.969

/-- The `thorax_irtracc_max_deflection_mm_AIS3plus` entry of `RISK_CURVES`. -/
def thoraxCurve : CurveForm := .logistic (-4.9522) 0.1657

/-- The diagnostic-only `chest_A3ms` entry of `RISK_CURVES`. -/
def chestA3msCurve : CurveForm := .legacy 60.0 0.08

/-- The `femur_force_kN_AIS2plus_proxy` entry of `RISK_CURVES`, with
`beta0 = 5.7949` and `beta1 = -0.7619` exactly as in the source. -/
def femurCurve : CurveForm := .logistic 5.7949 (-0.7619)

/-- The `RISK_CURVES` calibration table, keyed by channel name. -/
def RISK_CURVES : List (String × CurveForm) :=
  [("head_HIC15_AIS3plus_probit", headCurve),
   ("neck_Nij_AIS3plus", neckCurve),
   ("thorax_irtracc_max_deflection_mm_AIS3plus", thoraxCurve),
   ("chest_A3ms", chestA3msCurve),
   ("femur_force_kN_AIS2plus_proxy", femurCurve)]

/-- `BaselineRiskCalculator._risk`: `RISK_CURVES[criterion]` raises a
`KeyError` for an unknown criterion name (modelled by `none`), otherwise
the curve's probability is computed. -/
def risk (criterion : String) (value : ℝ) : Option ℝ :=
  (RISK_CURVES.find? fun p => p.1 == criterion).map fun p =>
    riskOfForm p.2 value

/-- `min(1.0, max(0.0, p))` applied to each input probability in
`_combine_injury_probabilities_correlated`. -/
def clamp01 (p : ℝ) : ℝ := min 1 (max 0 p)

/-- `_combine_injury_probabilities_correlated`: clamp the probabilities to
`[0,1]` and the correlation factor to `[0.1, 1.0]`, sum
`log(max(1e-12, 1 - p))` over the channels, exponentiate to get `p_none`,
raise it to the correlation factor and return `1 - p_none ** cf`. -/
def combine (probabilities : List ℝ) (corr_factor : ℝ) : ℝ :=
  let probs := probabilities.map clamp01
  let cf := min 1 (max 0.1 corr_factor)
  let log_p_none := (probs.map fun p => Real.log (max 1e-12 (1 - p))).sum
  let p_none := Real.exp log_p_none
  1 - p_none ^ cf

/-- Sample grid of `calculate_all` (steps 2–3): duration by crash side,
10 kHz sampling. -/
def timeArrayOf (inp : CrashInputs) : List ℝ :=
  linspace (pulseDuration inp) (nSamples (pulseDuration inp) 10000)

/-- Vehicle pulse of `calculate_all` (step 3). -/
def aVehicle (inp : CrashInputs) : List ℝ :=
  crashPulse (peakAcceleration (deltaV inp) (pulseDuration inp))
    (pulseDuration inp) (nSamples (pulseDuration inp) 10000)

/-- Occupant pulse `a_occ = alpha * a_vehicle` (step 4). -/
def aOcc (inp : CrashInputs) : List ℝ :=
  (aVehicle inp).map fun x => restraintTransferFactor inp * x

/-- `a_occ_g = a_occ / GRAVITY`. -/
def aOccG (inp : CrashInputs) : List ℝ :=
  (aOcc inp).map fun x => x / GRAVITY

/-- `a_occ_peak = float(np.max(a_occ))`. -/
def aOccPeak (inp : CrashInputs) : ℝ := npMax (aOcc inp)

/-- `hic15` of `calculate_all` (step 5). -/
def hicOf (inp : CrashInputs) : ℝ := hic15 (timeArrayOf inp) (aOccG inp)

/-- `nij` of `calculate_all` (step 5). -/
def nijOf (inp : CrashInputs) : ℝ := computeNij inp (timeArrayOf inp) (aOcc inp)

/-- `chest_deflection_mm = _compute_chest_deflection(a_occ_peak) * 1000`. -/
def chestDeflectionMM (inp : CrashInputs) : ℝ :=
  computeChestDeflection inp (aOccPeak inp) * 1000

/-- `femur_force_kN = _compute_femur_load(a_occ_peak) / 1000`. -/
def femurForceKN (inp : CrashInputs) : ℝ :=
  computeFemurLoad inp (aOccPeak inp) / 1000

/-- `p_head = _risk("head_HIC15_AIS3plus_probit", hic15)` (step 6). -/
def pHead (inp : CrashInputs) : ℝ := riskOfForm headCurve (hicOf inp)

/-- `p_neck = _risk("neck_Nij_AIS3plus", nij)`. -/
def pNeck (inp : CrashInputs) : ℝ := riskOfForm neckCurve (nijOf inp)

/-- `p_thorax = _risk("thorax_irtracc_max_deflection_mm_AIS3plus", mm)`. -/
def pThorax (inp : CrashInputs) : ℝ := riskOfForm thoraxCurve (chestDeflectionMM inp)

/-- `p_femur = _risk("femur_force_kN_AIS2plus_proxy", kN)`. -/
def pFemur (inp : CrashInputs) : ℝ := riskOfForm femurCurve (femurForceKN inp)

/-- Step 7 of `calculate_all`: the correlated combination of the four
combined channels (the diagnostic chest-A3ms probability is excluded). -/
def pBaseline (inp : CrashInputs) : ℝ :=
  combine [pHead inp, pNeck inp, pThorax inp, pFemur inp]
    inp.injury_correlation_factor

/-- `risk_score = p_baseline * 100.0`, the unrounded 0–100 score of
`calculate_all` (the result record additionally rounds it to 1 decimal). -/
def riskScore (inp : CrashInputs) : ℝ := pBaseline inp * 100

/-- Modelled from the claim (C4 wording): HIC15 as the maximum over all
index pairs `(i, j)` with `j > i` and `t(j) - t(i) ≤ 0.015` of
`(t(j) - t(i)) * mean_g ^ 2.5`, where the mean INCLUDES both endpoint
samples `i` and `j`. -/
def hic15SpecIncl (time_array a_g : List ℝ) : ℝ :=
  (List.range a_g.length).foldl
    (fun hm i =>
      (List.range' (i + 1) (a_g.length - (i + 1))).foldl
        (fun hm j =>
          let dur := time_array.getD j 0 - time_array.getD i 0
          if dur ≤ 0.015 then
            let avg := ((a_g.drop i).take (j - i + 1)).sum / ((j - i + 1 : ℕ) : ℝ)
            let v := dur * avg ^ (2.5 : ℝ)
            if hm < v then v else hm
          else hm)
        hm)
    0

/-- The amended form of claim C4: the same all-pairs maximum, but the
window mean runs over samples `i ≤ s < j`, excluding the right endpoint
exactly as the Python slice `a_g[i:j]` does, and only windows of positive
duration at most 0.015 s score. -/
def hic15AllPairsExcl (time_array a_g : List ℝ) : ℝ :=
  (List.range a_g.length).foldl
    (fun hm i =>
      (List.range' (i + 1) (a_g.length - (i + 1))).foldl
        (fun hm j =>
          let dur := time_array.getD j 0 - time_array.getD i 0
          if 0 < dur ∧ dur ≤ 0.015 then
            let w := j - i
            let avg := ((a_g.drop i).take w).sum / (w : ℝ)
            let v := dur * avg ^ (2.5 : ℝ)
            if hm < v then v else hm
          else hm)
        hm)
    0

/-- Concrete evaluation input: impact speed 0 m/s, frontal crash, all other
constructor arguments left at their Python defaults. -/
def zeroSpeedInputs : CrashInputs :=
  { impact_speed := 0, vehicle_mass := 1500, crash_side := "frontal" }

/-- Concrete evaluation input family: frontal crash at speed `v`, belt
worn, no airbags, no pretensioner/load limiter, neck spring and damper
overrides set to 0 (so the Nij channel contributes a constant), everything
else at the Python defaults. -/
def beltOnlyInputs (v : ℝ) : CrashInputs :=
  { impact_speed := v, vehicle_mass := 1500, crash_side := "frontal",
    front_airbag := false, neck_k_override := some 0,
    neck_c_override := some 0 }

/-- Same crash as `beltOnlyInputs v` with the seatbelt removed. -/
def unbeltedInputs (v : ℝ) : CrashInputs :=
  { beltOnlyInputs v with seatbelt_used := false }

/-- Concrete input: unbelted but with pretensioner and load limiter flags
set. -/
def unbeltedPretLLInputs : CrashInputs :=
  { impact_speed := 10, vehicle_mass := 1000, crash_side := "frontal",
    seatbelt_used := false, seatbelt_pretensioner := true,
    seatbelt_load_limiter := true }

/-! ## Generic helper lemmas -/

theorem foldl_preserve {α β : Type*} (P : β → Prop) (f : β → α → β)
    (l : List α) (c : β) (hc : P c)
    (h : ∀ m x, x ∈ l → P m → P (f m x)) : P (l.foldl f c) := by
  induction l generalizing c with
  | nil => exact hc
  | cons x xs ih =>
    exact ih (f c x) (h c x (List.mem_cons_self x xs) hc)
      (fun m y hy hm => h m y (List.mem_cons_of_mem x hy) hm)

theorem le_foldl_max (l : List ℝ) (c : ℝ) : c ≤ l.foldl max c := by
  induction l generalizing c with
  | nil => exact le_refl c
  | cons x xs ih => exact le_trans (le_max_left c x) (ih (max c x))

theorem mem_le_foldl_max {l : List ℝ} {x : ℝ} (c : ℝ) (hx : x ∈ l) :
    x ≤ l.foldl max c := by
  induction l generalizing c with
  | nil => cases hx
  | cons y ys ih =>
    rcases List.mem_cons.mp hx with h | h
    · subst h; exact le_trans (le_max_right c x) (le_foldl_max ys (max c x))
    · exact ih (max c y) h

theorem foldl_max_le {l : List ℝ} {B : ℝ} (c : ℝ) (hc : c ≤ B)
    (h : ∀ x ∈ l, x ≤ B) : l.foldl max c ≤ B := by
  induction l generalizing c with
  | nil => exact hc
  | cons x xs ih =>
    exact ih (max c x) (max_le hc (h x (List.mem_cons_self x xs)))
      (fun y hy => h y (List.mem_cons_of_mem x hy))

theorem le_npMax {l : List ℝ} {x : ℝ} (hx : x ∈ l) : x ≤ npMax l := by
  cases l with
  | nil => cases hx
  | cons y ys =>
    rcases List.mem_cons.mp hx with h | h
    · subst h; exact le_foldl_max ys x
    · exact mem_le_foldl_max y h

theorem npMax_le {l : List ℝ} {B : ℝ} (hB : 0 ≤ B) (h : ∀ x ∈ l, x ≤ B) :
    npMax l ≤ B := by
  cases l with
  | nil => exact hB
  | cons y ys =>
    exact foldl_max_le y (h y (List.mem_cons_self y ys))
      (fun x hx => h x (List.mem_cons_of_mem y hx))

theorem rpow_twoPointFive_nonneg (x : ℝ) : 0 ≤ x ^ (2.5 : ℝ) := by
  rcases le_or_lt 0 x with hx | hx
  · exact Real.rpow_nonneg hx _
  · rw [Real.rpow_def_of_neg hx]
    have h25 : (2.5 : ℝ) * π = π / 2 + 2 * π := by ring
    rw [h25, Real.cos_add_two_pi, Real.cos_pi_div_two, mul_zero]

/-! ## Claim C6: probit-on-log risk curve dispatch -/

/-- C6: for a probit-on-log curve, a non-positive value yields exactly 0;
otherwise `z = (ln value - mu)/sigma` saturates to exactly 1 above 8 and
exactly 0 below -8, and yields the error-function normal CDF in between.
(The Lean embedding is total, matching the claim that this path never
raises.) -/
theorem probit_curve_cases (mu sigma value : ℝ) :
    (value ≤ 0 → riskOfForm (CurveForm.probitLognormal mu sigma) value = 0) ∧
    (0 < value → 8 < (Real.log value - mu) / sigma →
      riskOfForm (CurveForm.probitLognormal mu sigma) value = 1) ∧
    (0 < value → (Real.log value - mu) / sigma < -8 →
      riskOfForm (CurveForm.probitLognormal mu sigma) value = 0) ∧
    (0 < value → -8 ≤ (Real.log value - mu) / sigma →
      (Real.log value - mu) / sigma ≤ 8 →
      riskOfForm (CurveForm.probitLognormal mu sigma) value =
        normalCdf ((Real.log value - mu) / sigma)) := by
  refine ⟨?_, ?_, ?_, ?_⟩ <;> intros <;> simp only [riskOfForm] <;>
    split_ifs <;> first | rfl | linarith

/-- Witness for C6 at concrete inputs (`mu = 0`, `sigma = 1`). -/
theorem probit_curve_cases_witness :
    riskOfForm (CurveForm.probitLognormal 0 1) (-1) = 0 ∧
    riskOfForm (CurveForm.probitLognormal 0 1) (Real.exp 9) = 1 ∧
    riskOfForm (CurveForm.probitLognormal 0 1) (Real.exp (-9)) = 0 ∧
    riskOfForm (CurveForm.probitLognormal 0 1) 1 =
      normalCdf ((Real.log 1 - 0) / 1) := by
  refine ⟨(probit_curve_cases 0 1 (-1)).1 (by norm_num),
    (probit_curve_cases 0 1 (Real.exp 9)).2.1 (Real.exp_pos 9)
      (by rw [Real.log_exp]; norm_num),
    (probit_curve_cases 0 1 (Real.exp (-9))).2.2.1 (Real.exp_pos _)
      (by rw [Real.log_exp]; norm_num),
    (probit_curve_cases 0 1 1).2.2.2 (by norm_num)
      (by rw [Real.log_one]; norm_num) (by rw [Real.log_one]; norm_num)⟩

/-! ## Claim C7: thorax deflection formula -/

/-- C7: thorax deflection is `gamma * (torso_mass * a_occ_peak) / k_belt`,
where `gamma` starts at 0.8, is multiplied by 0.7 when a frontal crash has
a front airbag and — in that airbag branch — further by 1.3 when the seat
is closer than 0.15 m to the wheel or by 1.2 when farther than 0.50 m, and
the result is multiplied by 1.1 when the occupant is pregnant. -/
theorem chest_deflection_formula (inp : CrashInputs) :
    computeChestDeflection inp (aOccPeak inp) =
      (if inp.front_airbag ∧ inp.crashSide = "frontal" then
        0.8 * 0.7 *
          (if inp.seat_distance_from_wheel < 0.15 then 1.3
          else if 0.50 < inp.seat_distance_from_wheel then 1.2 else 1)
      else 0.8)
      * (inp.torsoMass * aOccPeak inp) / DEFAULT_BELT_STIFFNESS
      * (if inp.is_pregnant then 1.1 else 1) := by
  simp only [computeChestDeflection]
  split_ifs <;> ring

/-! ## Claim C8: pulse duration lookup, peak acceleration, minimum samples -/

/-- C8: the pulse duration is 0.10 s for "frontal", 0.07 s for "side",
0.09 s for "rear" and 0.10 s for every other crash-side string; the peak
acceleration is `(pi/2) * (delta_v / T)`; and the generated time series
always has at least 2 samples, so `linspace` never divides by zero. -/
theorem pulse_model_spec :
    pulseDurationFor "frontal" = 0.10 ∧ pulseDurationFor "side" = 0.07 ∧
    pulseDurationFor "rear" = 0.09 ∧
    (∀ s : String, s ≠ "frontal" → s ≠ "side" → s ≠ "rear" →
      pulseDurationFor s = 0.10) ∧
    (∀ delta_v T : ℝ, peakAcceleration delta_v T = π / 2 * (delta_v / T)) ∧
    (∀ (T : ℝ) (r : ℕ), 2 ≤ nSamples T r) := by
  refine ⟨by simp [pulseDurationFor], by simp [pulseDurationFor],
    by simp [pulseDurationFor],
    fun s h1 h2 h3 => by simp [pulseDurationFor, h1, h2, h3],
    fun delta_v T => rfl, fun T r => le_max_left _ _⟩

/-- Witness for C8: an unknown crash side falls back to 0.10 s, and a
degenerate sampling window still yields 2 samples. -/
theorem pulse_model_spec_witness :
    pulseDurationFor "oblique" = 0.10 ∧ 2 ≤ nSamples 0.0001 10000 :=
  ⟨pulse_model_spec.2.2.2.1 "oblique" (by decide) (by decide) (by decide),
    pulse_model_spec.2.2.2.2.2 0.0001 10000⟩

/-! ## Claim C9: unknown risk-curve lookup aborts -/

/-- C9: requesting the probability of a criterion name aborts the
evaluation (the `KeyError` of `RISK_CURVES[criterion]`, modelled by
`none`) exactly when the name is not a key of the risk-curve library; for
every present name a probability is returned. -/
theorem risk_lookup_fails_iff_unknown (name : String) (value : ℝ) :
    risk name value = none ↔ name ∉ RISK_CURVES.map Prod.fst := by
  rw [risk, Option.map_eq_none', List.find?_eq_none]
  constructor
  · intro h hmem
    rcases List.mem_map.mp hmem with ⟨p, hp, hname⟩
    exact h p hp (beq_iff_eq.mpr hname)
  · intro h p hp hbeq
    exact h (List.mem_map.mpr ⟨p, hp, beq_iff_eq.mp hbeq⟩)

/-- Witness for C9: a name outside the library aborts, a library name
returns a probability. -/
theorem risk_lookup_fails_iff_unknown_witness :
    risk "torso" 3 = none ∧ risk "neck_Nij_AIS3plus" 3 ≠ none :=
  ⟨(risk_lookup_fails_iff_unknown "torso" 3).mpr (by decide),
    fun h => by
      have := (risk_lookup_fails_iff_unknown "neck_Nij_AIS3plus" 3).mp h
      exact this (by decide)⟩

/-! ## Claim C10: pretensioner and load limiter apply even when unbelted -/

/-- C10: with the seatbelt unused, the restraint transfer factor is still
multiplied by 0.95 for a pretensioner and 0.98 for a load limiter, so an
unbelted occupant's factor can fall below the unbelted base value 1.05. -/
theorem unbelted_pret_ll_still_applied (inp : CrashInputs)
    (h : inp.seatbelt_used = false) :
    restraintTransferFactor inp =
      1.05 * (if inp.seatbelt_pretensioner then 0.95 else 1) *
        (if inp.seatbelt_load_limiter then 0.98 else 1) ∧
    (inp.seatbelt_pretensioner = true ∨ inp.seatbelt_load_limiter = true →
      restraintTransferFactor inp < 1.05) := by
  have hbase : restraintTransferFactor inp =
      1.05 * (if inp.seatbelt_pretensioner then 0.95 else 1) *
        (if inp.seatbelt_load_limiter then 0.98 else 1) := by
    simp [restraintTransferFactor, h]
  refine ⟨hbase, fun hor => ?_⟩
  rw [hbase]
  rcases hor with h1 | h1 <;> simp only [h1, if_true] <;>
    split_ifs <;> norm_num

/-- Witness for C10 at a concrete unbelted record with both devices. -/
theorem unbelted_pret_ll_still_applied_witness :
    restraintTransferFactor unbeltedPretLLInputs = 1.05 * 0.95 * 0.98 ∧
    restraintTransferFactor unbeltedPretLLInputs < 1.05 := by
  have h := unbelted_pret_ll_still_applied unbeltedPretLLInputs rfl
  refine ⟨?_, h.2 (Or.inl rfl)⟩
  rw [h.1]
  norm_num [unbeltedPretLLInputs]

/-! ## Claim C3: the probability combiner -/

theorem max_floor_pos (p : ℝ) : (0 : ℝ) < max 1e-12 (1 - clamp01 p) :=
  lt_max_iff.mpr (Or.inl (by norm_num))

theorem combine_eval (p1 p2 p3 p4 cf : ℝ) :
    combine [p1, p2, p3, p4] cf =
      1 - (max 1e-12 (1 - clamp01 p1) * max 1e-12 (1 - clamp01 p2) *
        max 1e-12 (1 - clamp01 p3) * max 1e-12 (1 - clamp01 p4)) ^
        (min 1 (max 0.1 cf)) := by
  simp only [combine, List.map_cons, List.map_nil, List.sum_cons,
    List.sum_nil, add_zero]
  have hexp :
      Real.exp (Real.log (max 1e-12 (1 - clamp01 p1)) +
          (Real.log (max 1e-12 (1 - clamp01 p2)) +
            (Real.log (max 1e-12 (1 - clamp01 p3)) +
              Real.log (max 1e-12 (1 - clamp01 p4))))) =
        max 1e-12 (1 - clamp01 p1) * max 1e-12 (1 - clamp01 p2) *
          max 1e-12 (1 - clamp01 p3) * max 1e-12 (1 - clamp01 p4) := by
    rw [Real.exp_add, Real.exp_add, Real.exp_add,
      Real.exp_log (max_floor_pos p1), Real.exp_log (max_floor_pos p2),
      Real.exp_log (max_floor_pos p3), Real.exp_log (max_floor_pos p4)]
    ring
  rw [hexp]

/-- Counterexample for C3 as frozen: with a channel probability equal to
1, the log-space product floors the factor at `1e-12`, so the combiner
does NOT return `1 - (prod (1-p_i)) ^ corr_factor` (which would be exactly
1 here): it returns `1 - (1e-12) ^ 0.5 < 1`. -/
theorem combiner_exact_formula_counterexample :
    combine [1, 0, 0, 0] 0.5 ≠
      1 - ((1 - 1) * (1 - 0) * (1 - 0) * (1 - 0) : ℝ) ^ (0.5 : ℝ) := by
  have heval := combine_eval 1 0 0 0 0.5
  have hc1 : clamp01 1 = 1 := by norm_num [clamp01]
  have hc0 : clamp01 0 = 0 := by norm_num [clamp01]
  rw [hc1, hc0] at heval
  have hm0 : max (1e-12 : ℝ) (1 - 1) = 1e-12 := by norm_num
  have hm1 : max (1e-12 : ℝ) (1 - 0) = 1 := by norm_num
  rw [hm0, hm1] at heval
  have hmin : min (1 : ℝ) (max 0.1 0.5) = 0.5 := by norm_num
  rw [hmin] at heval
  have hrhs : ((1 - 1) * (1 - 0) * (1 - 0) * (1 - 0) : ℝ) ^ (0.5 : ℝ) = 0 := by
    have : ((1 - 1) * (1 - 0) * (1 - 0) * (1 - 0) : ℝ) = 0 := by norm_num
    rw [this]
    exact Real.zero_rpow (by norm_num)
  rw [heval, hrhs]
  have hpos : (0 : ℝ) < ((1e-12 : ℝ) * 1 * 1 * 1) ^ (0.5 : ℝ) :=
    Real.rpow_pos_of_pos (by norm_num) _
  intro hEq
  nlinarith [hpos]

/-- C3 amended: for probabilities in `[0,1]`, `corr_factor = 1` matches
the plain independence union to within `1e-9` (the only deviation is the
`1e-12` underflow floor); and in general the combiner clamps the
correlation factor to `[0.1, 1]` and returns
`1 - (prod max(1e-12, 1-p_i)) ^ cf`, the product being computed in
log-space. -/
theorem combiner_amended (p1 p2 p3 p4 cf : ℝ)
    (h1 : 0 ≤ p1 ∧ p1 ≤ 1) (h2 : 0 ≤ p2 ∧ p2 ≤ 1)
    (h3 : 0 ≤ p3 ∧ p3 ≤ 1) (h4 : 0 ≤ p4 ∧ p4 ≤ 1) :
    |combine [p1, p2, p3, p4] 1 -
        (1 - (1 - p1) * (1 - p2) * (1 - p3) * (1 - p4))| ≤ 1e-9 ∧
    combine [p1, p2, p3, p4] cf =
      1 - (max 1e-12 (1 - p1) * max 1e-12 (1 - p2) * max 1e-12 (1 - p3) *
        max 1e-12 (1 - p4)) ^ (min 1 (max 0.1 cf)) := by
  have hcl : ∀ p : ℝ, 0 ≤ p → p ≤ 1 → clamp01 p = p := fun p ha hb => by
    rw [clamp01, max_eq_right ha, min_eq_right hb]
  have e1 := combine_eval p1 p2 p3 p4 cf
  have e2 := combine_eval p1 p2 p3 p4 1
  rw [hcl p1 h1.1 h1.2, hcl p2 h2.1 h2.2, hcl p3 h3.1 h3.2,
    hcl p4 h4.1 h4.2] at e1 e2
  refine ⟨?_, e1⟩
  have hminone : min (1 : ℝ) (max 0.1 1) = 1 := by norm_num
  rw [hminone, Real.rpow_one] at e2
  rw [e2]
  set b1 : ℝ := 1 - p1 with hb1
  set b2 : ℝ := 1 - p2 with hb2
  set b3 : ℝ := 1 - p3 with hb3
  set b4 : ℝ := 1 - p4 with hb4
  set m1 : ℝ := max 1e-12 b1 with hm1
  set m2 : ℝ := max 1e-12 b2 with hm2
  set m3 : ℝ := max 1e-12 b3 with hm3
  set m4 : ℝ := max 1e-12 b4 with hm4
  have hb1b : 0 ≤ b1 ∧ b1 ≤ 1 := by constructor <;> [linarith [h1.2]; linarith [h1.1]]
  have hb2b : 0 ≤ b2 ∧ b2 ≤ 1 := by constructor <;> [linarith [h2.2]; linarith [h2.1]]
  have hb3b : 0 ≤ b3 ∧ b3 ≤ 1 := by constructor <;> [linarith [h3.2]; linarith [h3.1]]
  have hb4b : 0 ≤ b4 ∧ b4 ≤ 1 := by constructor <;> [linarith [h4.2]; linarith [h4.1]]
  have hle1 : b1 ≤ m1 := le_max_right _ _
  have hle2 : b2 ≤ m2 := le_max_right _ _
  have hle3 : b3 ≤ m3 := le_max_right _ _
  have hle4 : b4 ≤ m4 := le_max_right _ _
  have hub1 : m1 ≤ b1 + 1e-12 := max_le (by linarith [hb1b.1]) (by linarith)
  have hub2 : m2 ≤ b2 + 1e-12 := max_le (by linarith [hb2b.1]) (by linarith)
  have hub3 : m3 ≤ b3 + 1e-12 := max_le (by linarith [hb3b.1]) (by linarith)
  have hub4 : m4 ≤ b4 + 1e-12 := max_le (by linarith [hb4b.1]) (by linarith)
  have hone1 : m1 ≤ 1 := max_le (by norm_num) hb1b.2
  have hone2 : m2 ≤ 1 := max_le (by norm_num) hb2b.2
  have hone3 : m3 ≤ 1 := max_le (by norm_num) hb3b.2
  have hone4 : m4 ≤ 1 := max_le (by norm_num) hb4b.2
  have hnn1 : (0 : ℝ) ≤ m1 := le_trans (by norm_num) (le_max_left _ _)
  have hnn2 : (0 : ℝ) ≤ m2 := le_trans (by norm_num) (le_max_left _ _)
  have hnn3 : (0 : ℝ) ≤ m3 := le_trans (by norm_num) (le_max_left _ _)
  have hnn4 : (0 : ℝ) ≤ m4 := le_trans (by norm_num) (le_max_left _ _)
  have hBM : b1 * b2 * b3 * b4 ≤ m1 * m2 * m3 * m4 := by
    have s1 : b1 * b2 ≤ m1 * m2 := mul_le_mul hle1 hle2 hb2b.1 hnn1
    have s2 : b1 * b2 * b3 ≤ m1 * m2 * m3 :=
      mul_le_mul s1 hle3 hb3b.1 (by positivity)
    exact mul_le_mul s2 hle4 hb4b.1 (by positivity)
  have hsplit : m1 * m2 * m3 * m4 - b1 * b2 * b3 * b4 =
      (m1 - b1) * (m2 * m3 * m4) + b1 * (m2 - b2) * (m3 * m4) +
        b1 * b2 * (m3 - b3) * m4 + b1 * b2 * b3 * (m4 - b4) := by ring
  have hd1 : m1 - b1 ≤ 1e-12 := by linarith
  have hd1n : (0 : ℝ) ≤ m1 - b1 := by linarith
  have hd2 : m2 - b2 ≤ 1e-12 := by linarith
  have hd2n : (0 : ℝ) ≤ m2 - b2 := by linarith
  have hd3 : m3 - b3 ≤ 1e-12 := by linarith
  have hd3n : (0 : ℝ) ≤ m3 - b3 := by linarith
  have hd4 : m4 - b4 ≤ 1e-12 := by linarith
  have hd4n : (0 : ℝ) ≤ m4 - b4 := by linarith
  have hb12 : b1 * b2 ≤ 1 := mul_le_one₀ hb1b.2 hb2b.1 hb2b.2
  have hb123 : b1 * b2 * b3 ≤ 1 := mul_le_one₀ hb12 hb3b.1 hb3b.2
  have hMB : m1 * m2 * m3 * m4 - b1 * b2 * b3 * b4 ≤ 4e-12 := by
    have t1 : (m1 - b1) * (m2 * m3 * m4) ≤ 1e-12 := by
      have hp : m2 * m3 * m4 ≤ 1 :=
        mul_le_one₀ (mul_le_one₀ hone2 hnn3 hone3) hnn4 hone4
      have hq : (0 : ℝ) ≤ m2 * m3 * m4 := by positivity
      calc (m1 - b1) * (m2 * m3 * m4) ≤ 1e-12 * 1 :=
            mul_le_mul hd1 hp hq (by norm_num)
        _ = 1e-12 := mul_one _
    have t2 : b1 * (m2 - b2) * (m3 * m4) ≤ 1e-12 := by
      have hp : m3 * m4 ≤ 1 := mul_le_one₀ hone3 hnn4 hone4
      have hq : (0 : ℝ) ≤ m3 * m4 := by positivity
      have hstep : b1 * (m2 - b2) ≤ 1e-12 := by
        calc b1 * (m2 - b2) ≤ 1 * 1e-12 :=
              mul_le_mul hb1b.2 hd2 hd2n (by norm_num)
          _ = 1e-12 := one_mul _
      calc b1 * (m2 - b2) * (m3 * m4) ≤ 1e-12 * 1 :=
            mul_le_mul hstep hp hq (by norm_num)
        _ = 1e-12 := mul_one _
    have t3 : b1 * b2 * (m3 - b3) * m4 ≤ 1e-12 := by
      have hstep : b1 * b2 * (m3 - b3) ≤ 1e-12 := by
        calc b1 * b2 * (m3 - b3) ≤ 1 * 1e-12 :=
              mul_le_mul hb12 hd3 hd3n (by norm_num)
          _ = 1e-12 := one_mul _
      calc b1 * b2 * (m3 - b3) * m4 ≤ 1e-12 * 1 :=
            mul_le_mul hstep hone4 hnn4 (by norm_num)
        _ = 1e-12 := mul_one _
    have t4 : b1 * b2 * b3 * (m4 - b4) ≤ 1e-12 := by
      calc b1 * b2 * b3 * (m4 - b4) ≤ 1 * 1e-12 :=
            mul_le_mul hb123 hd4 hd4n (by norm_num)
        _ = 1e-12 := one_mul _
    linarith [hsplit, t1, t2, t3, t4]
  have habs : (1 - m1 * m2 * m3 * m4) - (1 - b1 * b2 * b3 * b4) =
      b1 * b2 * b3 * b4 - m1 * m2 * m3 * m4 := by ring
  rw [habs, abs_of_nonpos (by linarith)]
  linarith

/-- Witness for C3 (amended) at `p = [1/2, 1/3, 0, 1]`, `cf = 0.3`. -/
theorem combiner_amended_witness :
    |combine [1/2, 1/3, 0, 1] 1 -
        (1 - (1 - 1/2) * (1 - 1/3) * (1 - 0) * (1 - 1))| ≤ 1e-9 ∧
    combine [1/2, 1/3, 0, 1] 0.3 =
      1 - (max (1e-12 : ℝ) (1 - 1/2) * max (1e-12 : ℝ) (1 - 1/3) *
        max (1e-12 : ℝ) (1 - 0) * max (1e-12 : ℝ) (1 - 1)) ^
        (min (1 : ℝ) (max 0.1 0.3)) :=
  combiner_amended (1/2) (1/3) 0 1 0.3 (by norm_num) (by norm_num)
    (by norm_num) (by norm_num)

/-! ## Running-maximum fold machinery (for the HIC15 window search) -/

theorem ite_lt_eq_max (m v : ℝ) : (if m < v then v else m) = max m v := by
  split_ifs with h
  · exact (max_eq_right h.le).symm
  · exact (max_eq_left (not_lt.mp h)).symm

theorem foldl_ge_init {α : Type*} (f : ℝ → α → ℝ) (hf : ∀ m x, m ≤ f m x)
    (l : List α) (c : ℝ) : c ≤ l.foldl f c := by
  induction l generalizing c with
  | nil => exact le_refl c
  | cons x xs ih => exact le_trans (hf c x) (ih (f c x))

theorem maxFold_step_mono {α : Type*} (A : α → Prop) [DecidablePred A]
    (w : α → ℝ) (m : ℝ) (x : α) :
    m ≤ if A x then max m (w x) else m := by
  split_ifs
  · exact le_max_left _ _
  · exact le_refl m

theorem maxFold_ge_elem {α : Type*} (A : α → Prop) [DecidablePred A]
    (w : α → ℝ) {l : List α} {x : α} (hx : x ∈ l) (hA : A x) (c : ℝ) :
    w x ≤ l.foldl (fun m y => if A y then max m (w y) else m) c := by
  induction l generalizing c with
  | nil => cases hx
  | cons y ys ih =>
    rcases List.mem_cons.mp hx with h | h
    · subst h
      have h1 : w x ≤ if A x then max c (w x) else c := by
        rw [if_pos hA]; exact le_max_right _ _
      exact le_trans h1 (foldl_ge_init _ (maxFold_step_mono A w) ys _)
    · exact ih h _

theorem maxFold_le {α : Type*} (A : α → Prop) [DecidablePred A]
    (w : α → ℝ) {l : List α} {c B : ℝ} (hc : c ≤ B)
    (h : ∀ x ∈ l, A x → w x ≤ B) :
    l.foldl (fun m y => if A y then max m (w y) else m) c ≤ B := by
  refine foldl_preserve (fun m => m ≤ B) _ l c hc (fun m x hx hm => ?_)
  dsimp only
  split_ifs with hA
  · exact max_le hm (h x hx hA)
  · exact hm

theorem maxFold_cases {α : Type*} (A : α → Prop) [DecidablePred A]
    (w : α → ℝ) (l : List α) (c : ℝ) :
    l.foldl (fun m y => if A y then max m (w y) else m) c = c ∨
      ∃ x ∈ l, A x ∧
        l.foldl (fun m y => if A y then max m (w y) else m) c = w x := by
  induction l generalizing c with
  | nil => exact Or.inl rfl
  | cons y ys ih =>
    rcases ih (if A y then max c (w y) else c) with h | ⟨x, hx, hAx, heq⟩
    · by_cases hA : A y
      · rcases le_total (w y) c with hwc | hcw
        · left
          rw [List.foldl_cons, h, if_pos hA, max_eq_left hwc]
        · right
          exact ⟨y, List.mem_cons_self y ys, hA, by
            rw [List.foldl_cons, h, if_pos hA, max_eq_right hcw]⟩
      · left
        rw [List.foldl_cons, h, if_neg hA]
    · exact Or.inr ⟨x, List.mem_cons_of_mem y hx, hAx, heq⟩

theorem foldl_foldl_eq_foldl_bind {α β γ : Type*} (f : γ → β → γ)
    (h : α → List β) (L : List α) (c : γ) :
    L.foldl (fun m i => (h i).foldl f m) c = (L.flatMap h).foldl f c := by
  induction L generalizing c with
  | nil => rfl
  | cons x xs ih =>
    rw [List.flatMap_cons, List.foldl_append, List.foldl_cons]
    exact ih _

theorem grid_getD (n : ℕ) (dt : ℝ) {i : ℕ} (hi : i < n) :
    ((List.range n).map fun k : ℕ => (k : ℝ) * dt).getD i 0 = (i : ℝ) * dt := by
  have hlen : i < ((List.range n).map fun k : ℕ => (k : ℝ) * dt).length := by
    simpa using hi
  rw [List.getD_eq_getElem?_getD, List.getElem?_eq_getElem hlen]
  simp

theorem nestedMaxFold_ge_init {α β : Type*} (A : α → β → Prop)
    [∀ i j, Decidable (A i j)] (w : α → β → ℝ) (J : α → List β)
    (L : List α) (c : ℝ) :
    c ≤ L.foldl (fun m i => (J i).foldl
      (fun m j => if A i j then max m (w i j) else m) m) c :=
  foldl_ge_init _
    (fun m i => foldl_ge_init _ (maxFold_step_mono (A i) (w i)) (J i) m) L c

theorem nestedMaxFold_le {α β : Type*} (A : α → β → Prop)
    [∀ i j, Decidable (A i j)] (w : α → β → ℝ) (J : α → List β)
    {L : List α} {c B : ℝ} (hc : c ≤ B)
    (h : ∀ i ∈ L, ∀ j ∈ J i, A i j → w i j ≤ B) :
    L.foldl (fun m i => (J i).foldl
      (fun m j => if A i j then max m (w i j) else m) m) c ≤ B :=
  foldl_preserve (fun m => m ≤ B) _ L c hc
    (fun m i hi hm => maxFold_le (A i) (w i) hm
      (fun j hj hA => h i hi j hj hA))

theorem nestedMaxFold_ge_elem {α β : Type*} (A : α → β → Prop)
    [∀ i j, Decidable (A i j)] (w : α → β → ℝ) (J : α → List β)
    {L : List α} {i : α} {j : β} (hi : i ∈ L) (hj : j ∈ J i) (hA : A i j)
    (c : ℝ) :
    w i j ≤ L.foldl (fun m i => (J i).foldl
      (fun m j => if A i j then max m (w i j) else m) m) c := by
  induction L generalizing c with
  | nil => cases hi
  | cons y ys ih =>
    rcases List.mem_cons.mp hi with h | h
    · subst h
      refine le_trans (maxFold_ge_elem (A i) (w i) hj hA c) ?_
      exact foldl_ge_init _
        (fun m x => foldl_ge_init _ (maxFold_step_mono (A x) (w x)) (J x) m)
        ys _
    · exact ih h _

theorem nestedMaxFold_cases {α β : Type*} (A : α → β → Prop)
    [∀ i j, Decidable (A i j)] (w : α → β → ℝ) (J : α → List β)
    (L : List α) (c : ℝ) :
    L.foldl (fun m i => (J i).foldl
      (fun m j => if A i j then max m (w i j) else m) m) c = c ∨
    ∃ i ∈ L, ∃ j ∈ J i, A i j ∧
      L.foldl (fun m i => (J i).foldl
        (fun m j => if A i j then max m (w i j) else m) m) c = w i j := by
  induction L generalizing c with
  | nil => exact Or.inl rfl
  | cons y ys ih =>
    rcases ih ((J y).foldl (fun m j => if A y j then max m (w y j) else m) c)
      with h | ⟨i, hi, j, hj, hA, heq⟩
    · rcases maxFold_cases (A y) (w y) (J y) c with h2 | ⟨j, hj, hA, heq2⟩
      · left
        rw [List.foldl_cons, h, h2]
      · right
        exact ⟨y, List.mem_cons_self y ys, j, hj, hA, by
          rw [List.foldl_cons, h, heq2]⟩
    · right
      exact ⟨i, List.mem_cons_of_mem y hi, j, hj, hA, by
        rw [List.foldl_cons]; exact heq⟩

theorem hic15_canon (t a : List ℝ)
    (hdt : 0 < t.getD 1 0 - t.getD 0 0) :
    hic15 t a =
      (List.range (a.length - 1)).foldl
        (fun m i =>
          (List.range' (i + 1)
            (min (i + max 2 (Int.toNat ⌊0.015 / (t.getD 1 0 - t.getD 0 0)⌋))
              (a.length - 1) - i)).foldl
            (fun m j =>
              if 0 < t.getD j 0 - t.getD i 0 ∧
                  t.getD j 0 - t.getD i 0 ≤ 0.015 then
                max m ((t.getD j 0 - t.getD i 0) *
                  (((a.drop i).take (j - i)).sum / ((j - i : ℕ) : ℝ)) ^
                    (2.5 : ℝ))
              else m)
            m)
        0 := by
  simp only [hic15]
  rw [if_neg (not_le.mpr hdt)]
  refine List.foldl_ext _ _ 0 fun m i hi => ?_
  refine List.foldl_ext _ _ m fun m2 j hj => ?_
  by_cases h : 0 < t.getD j 0 - t.getD i 0 ∧ t.getD j 0 - t.getD i 0 ≤ 0.015
  · rw [if_neg (by push_neg; exact h), if_pos h, ite_lt_eq_max]
  · rw [if_neg h]
    rcases not_and_or.mp h with h1 | h1
    · exact if_pos (Or.inl (not_lt.mp h1))
    · exact if_pos (Or.inr (not_le.mp h1))

theorem hic15AllPairsExcl_canon (t a : List ℝ) :
    hic15AllPairsExcl t a =
      (List.range a.length).foldl
        (fun m i =>
          (List.range' (i + 1) (a.length - (i + 1))).foldl
            (fun m j =>
              if 0 < t.getD j 0 - t.getD i 0 ∧
                  t.getD j 0 - t.getD i 0 ≤ 0.015 then
                max m ((t.getD j 0 - t.getD i 0) *
                  (((a.drop i).take (j - i)).sum / ((j - i : ℕ) : ℝ)) ^
                    (2.5 : ℝ))
              else m)
            m)
        0 := by
  simp only [hic15AllPairsExcl]
  refine List.foldl_ext _ _ 0 fun m i hi => ?_
  refine List.foldl_ext _ _ m fun m2 j hj => ?_
  by_cases h : 0 < t.getD j 0 - t.getD i 0 ∧ t.getD j 0 - t.getD i 0 ≤ 0.015
  · rw [if_pos h, if_pos h, ite_lt_eq_max]
  · rw [if_neg h, if_neg h]

theorem hic15_matches_all_pairs_aux (a : List ℝ) (dt : ℝ) (hdt : 0 < dt)
    (hn2 : 2 ≤ a.length) :
    hic15 ((List.range a.length).map fun k : ℕ => (k : ℝ) * dt) a =
      hic15AllPairsExcl
        ((List.range a.length).map fun k : ℕ => (k : ℝ) * dt) a := by
  set t := (List.range a.length).map fun k : ℕ => (k : ℝ) * dt with ht
  have ht1 : t.getD 1 0 = dt := by
    rw [ht, grid_getD a.length dt (by omega)]; norm_num
  have ht0 : t.getD 0 0 = 0 := by
    rw [ht, grid_getD a.length dt (by omega)]; norm_num
  have hdtp : 0 < t.getD 1 0 - t.getD 0 0 := by rw [ht1, ht0]; simpa
  have hget : ∀ i < a.length, t.getD i 0 = (i : ℝ) * dt := fun i hi => by
    rw [ht, grid_getD a.length dt hi]
  have hdur : ∀ i j : ℕ, i < a.length → j < a.length → i ≤ j →
      t.getD j 0 - t.getD i 0 = ((j - i : ℕ) : ℝ) * dt := by
    intro i j hi hj hij
    rw [hget i hi, hget j hj, Nat.cast_sub hij]
    ring
  rw [hic15_canon t a hdtp, hic15AllPairsExcl_canon t a, ht1, ht0, sub_zero]
  apply le_antisymm
  · rcases nestedMaxFold_cases
        (fun i j => 0 < t.getD j 0 - t.getD i 0 ∧
          t.getD j 0 - t.getD i 0 ≤ 0.015)
        (fun i j => (t.getD j 0 - t.getD i 0) *
          (((a.drop i).take (j - i)).sum / ((j - i : ℕ) : ℝ)) ^ (2.5 : ℝ))
        (fun i => List.range' (i + 1)
          (min (i + max 2 (Int.toNat ⌊0.015 / dt⌋)) (a.length - 1) - i))
        (List.range (a.length - 1)) 0 with h | ⟨i, hi, j, hj, hA, heq⟩
    · refine h.trans_le (nestedMaxFold_ge_init _ _ _ _ _)
    · have hi1 : i < a.length - 1 := List.mem_range.mp hi
      have hj1 := (List.mem_range'_1.mp hj)
      have hjle : j ≤ a.length - 1 := by omega
      have hi2 : i ∈ List.range a.length := List.mem_range.mpr (by omega)
      have hj2 : j ∈ List.range' (i + 1) (a.length - (i + 1)) :=
        List.mem_range'_1.mpr (by omega)
      exact heq.trans_le
        (nestedMaxFold_ge_elem
          (fun i j => 0 < t.getD j 0 - t.getD i 0 ∧
            t.getD j 0 - t.getD i 0 ≤ 0.015)
          (fun i j => (t.getD j 0 - t.getD i 0) *
            (((a.drop i).take (j - i)).sum / ((j - i : ℕ) : ℝ)) ^ (2.5 : ℝ))
          (fun i => List.range' (i + 1) (a.length - (i + 1)))
          hi2 hj2 hA 0)
  · rcases nestedMaxFold_cases
        (fun i j => 0 < t.getD j 0 - t.getD i 0 ∧
          t.getD j 0 - t.getD i 0 ≤ 0.015)
        (fun i j => (t.getD j 0 - t.getD i 0) *
          (((a.drop i).take (j - i)).sum / ((j - i : ℕ) : ℝ)) ^ (2.5 : ℝ))
        (fun i => List.range' (i + 1) (a.length - (i + 1)))
        (List.range a.length) 0 with h | ⟨i, hi, j, hj, hA, heq⟩
    · refine h.trans_le (nestedMaxFold_ge_init _ _ _ _ _)
    · have hi1 : i < a.length := List.mem_range.mp hi
      have hj1 := (List.mem_range'_1.mp hj)
      have hjn : j < a.length := by omega
      have hij : i < j := by omega
      -- from the duration bound, the window fits under the sample cap
      have hdurij : t.getD j 0 - t.getD i 0 = ((j - i : ℕ) : ℝ) * dt :=
        hdur i j hi1 hjn (by omega)
      have hcap : j - i ≤ Int.toNat ⌊0.015 / dt⌋ := by
        have hle : ((j - i : ℕ) : ℝ) ≤ 0.015 / dt := by
          rw [le_div_iff hdt]
          have := hA.2
          rw [hdurij] at this
          exact this
        have hfl : ((j - i : ℕ) : ℤ) ≤ ⌊(0.015 : ℝ) / dt⌋ :=
          Int.le_floor.mpr (by exact_mod_cast hle)
        omega
      have hi2 : i ∈ List.range (a.length - 1) := List.mem_range.mpr (by omega)
      have hj2 : j ∈ List.range' (i + 1)
          (min (i + max 2 (Int.toNat ⌊0.015 / dt⌋)) (a.length - 1) - i) :=
        List.mem_range'_1.mpr (by omega)
      exact heq.trans_le
        (nestedMaxFold_ge_elem
          (fun i j => 0 < t.getD j 0 - t.getD i 0 ∧
            t.getD j 0 - t.getD i 0 ≤ 0.015)
          (fun i j => (t.getD j 0 - t.getD i 0) *
            (((a.drop i).take (j - i)).sum / ((j - i : ℕ) : ℝ)) ^ (2.5 : ℝ))
          (fun i => List.range' (i + 1)
            (min (i + max 2 (Int.toNat ⌊0.015 / dt⌋)) (a.length - 1) - i))
          hi2 hj2 hA 0)

/-! ## Claim C4: the HIC15 window search -/

/-- Counterexample for C4 as frozen: on the two-sample equally-spaced
pulse `t = [0, 0.01]`, `a_g = [0, 1]`, the source's HIC15 is 0 — the
window mean is over the Python slice `a_g[i:j]`, which EXCLUDES the right
endpoint sample `j` — while the claim's endpoint-inclusive mean gives
`0.01 * (1/2)^2.5 > 0`. -/
theorem hic15_incl_mean_counterexample :
    hic15 [0, 0.01] [0, 1] ≠ hic15SpecIncl [0, 0.01] [0, 1] := by
  have hfloor : (⌊(0.015 : ℝ) / (0.01 - 0)⌋ : ℤ) = 1 := by
    rw [show (0.015 : ℝ) / (0.01 - 0) = 1.5 by norm_num, Int.floor_eq_iff]
    norm_num
  have hcode : hic15 [0, 0.01] [0, 1] = 0 := by
    simp only [hic15, List.getD_cons_succ, List.getD_cons_zero,
      List.length_cons, List.length_nil, hfloor]
    norm_num [List.range_succ, List.range'_one, Real.zero_rpow]
  have hspec : hic15SpecIncl [0, 0.01] [0, 1] =
      0.01 * (2⁻¹ : ℝ) ^ (2.5 : ℝ) := by
    simp only [hic15SpecIncl, List.getD_cons_succ, List.getD_cons_zero,
      List.length_cons, List.length_nil]
    norm_num [List.range_succ, List.range'_one, List.range'_zero]
    positivity
  rw [hcode, hspec]
  intro h
  have hpos : (0 : ℝ) < 0.01 * (2⁻¹ : ℝ) ^ (2.5 : ℝ) := by positivity
  exact absurd h.symm (ne_of_gt hpos)

/-- C4 amended: on every equally-spaced occupant pulse (time grid
`t i = i * dt` with `dt > 0`), the source's HIC15 equals the maximum over
ALL index pairs `(i, j)` with `j > i` and window duration in
`(0, 0.015]` s of `duration * mean^2.5`, where the mean runs over samples
`i ≤ s < j`, excluding the right endpoint (the internal window cap
`max(2, int(0.015/dt))` never discards a qualifying window). -/
theorem hic15_matches_all_pairs (a : List ℝ) (dt : ℝ) (hdt : 0 < dt) :
    hic15 ((List.range a.length).map fun k : ℕ => (k : ℝ) * dt) a =
      hic15AllPairsExcl
        ((List.range a.length).map fun k : ℕ => (k : ℝ) * dt) a := by
  by_cases hn : 2 ≤ a.length
  · exact hic15_matches_all_pairs_aux a dt hdt hn
  · rcases a with _ | ⟨x, a2⟩
    · norm_num [hic15, hic15AllPairsExcl]
    · rcases a2 with _ | ⟨y, a3⟩
      · norm_num [hic15, hic15AllPairsExcl, List.range_succ, List.range_zero]
      · exact absurd (by simp) hn

/-- Witness for C4 (amended) at the counterexample pulse. -/
theorem hic15_matches_all_pairs_witness :
    hic15 ((List.range ([0, 1] : List ℝ).length).map
        fun k : ℕ => (k : ℝ) * 0.01) [0, 1] =
      hic15AllPairsExcl ((List.range ([0, 1] : List ℝ).length).map
        fun k : ℕ => (k : ℝ) * 0.01) [0, 1] :=
  hic15_matches_all_pairs [0, 1] 0.01 (by norm_num)

/-! ## Numeric bounds on `exp`, `sin` and the risk-curve shapes -/

theorem exp_three_gt : (20.085 : ℝ) < Real.exp 3 := by
  have h3 : (3 : ℝ) = ((3 : ℕ) : ℝ) * 1 := by norm_num
  rw [h3, Real.exp_nat_mul]
  calc (20.085 : ℝ) < 2.7182818283 ^ (3 : ℕ) := by norm_num
    _ ≤ Real.exp 1 ^ (3 : ℕ) :=
      pow_le_pow_left (by norm_num) Real.exp_one_gt_d9.le 3

theorem exp_five_gt : (100 : ℝ) < Real.exp 5 := by
  have h5 : (5 : ℝ) = ((5 : ℕ) : ℝ) * 1 := by norm_num
  rw [h5, Real.exp_nat_mul]
  calc (100 : ℝ) < 2.7182818283 ^ (5 : ℕ) := by norm_num
    _ ≤ Real.exp 1 ^ (5 : ℕ) :=
      pow_le_pow_left (by norm_num) Real.exp_one_gt_d9.le 5

theorem exp_six_lt : Real.exp 6 < 404 := by
  have h6 : (6 : ℝ) = ((6 : ℕ) : ℝ) * 1 := by norm_num
  rw [h6, Real.exp_nat_mul]
  calc Real.exp 1 ^ (6 : ℕ) ≤ 2.7182818286 ^ (6 : ℕ) :=
      pow_le_pow_left (Real.exp_pos 1).le Real.exp_one_lt_d9.le 6
    _ < 404 := by norm_num

theorem one_add_quarter_pow_le_exp (x : ℝ) (hx : 0 ≤ x) :
    (1 + x / 4) ^ (4 : ℕ) ≤ Real.exp x := by
  calc (1 + x / 4) ^ (4 : ℕ) ≤ Real.exp (x / 4) ^ (4 : ℕ) :=
      pow_le_pow_left (by positivity)
        (by linarith [Real.add_one_le_exp (x / 4)]) 4
    _ = Real.exp (((4 : ℕ) : ℝ) * (x / 4)) := (Real.exp_nat_mul _ 4).symm
    _ = Real.exp x := by
      congr 1
      push_cast
      ring

theorem sin_grid_peak : (0.9999 : ℝ) ≤ Real.sin (π * 499 / 999) := by
  have h : π * 499 / 999 = π / 2 - π / 1998 := by ring
  rw [h, Real.sin_pi_div_two_sub]
  have h1 : 1 - (π / 1998) ^ 2 / 2 ≤ Real.cos (π / 1998) :=
    Real.one_sub_sq_div_two_le_cos
  have hπ : π ≤ 3.1416 := by linarith [Real.pi_lt_3141593]
  have hb : π / 1998 ≤ 0.0016 := by linarith
  have hbn : (0 : ℝ) ≤ π / 1998 := by positivity
  have hsq : (π / 1998) ^ 2 ≤ (0.0016 : ℝ) ^ 2 := pow_le_pow_left hbn hb 2
  nlinarith

theorem logistic_eval (b0 b1 v : ℝ) (h1 : b0 + b1 * v ≤ 50)
    (h2 : -50 ≤ b0 + b1 * v) :
    riskOfForm (CurveForm.logistic b0 b1) v =
      1 / (1 + Real.exp (-(b0 + b1 * v))) := by
  simp only [riskOfForm]
  rw [if_neg (not_lt.mpr h1), if_neg (not_lt.mpr h2)]

theorem logistic_range (b0 b1 v : ℝ) :
    0 ≤ riskOfForm (CurveForm.logistic b0 b1) v ∧
      riskOfForm (CurveForm.logistic b0 b1) v ≤ 1 := by
  simp only [riskOfForm]
  split_ifs
  · exact ⟨by norm_num, le_refl 1⟩
  · exact ⟨le_refl 0, by norm_num⟩
  · constructor
    · positivity
    · rw [div_le_one (by positivity)]
      linarith [Real.exp_pos (-(b0 + b1 * v))]

theorem one_sub_logistic (z : ℝ) :
    1 - 1 / (1 + Real.exp (-z)) = 1 / (1 + Real.exp z) := by
  have h1 : (0 : ℝ) < 1 + Real.exp (-z) := by positivity
  have h2 : (0 : ℝ) < 1 + Real.exp z := by positivity
  have hm : Real.exp z * Real.exp (-z) = 1 := by
    rw [← Real.exp_add]; simp
  field_simp
  nlinarith [hm]

theorem probit_head_zero {x : ℝ} (h0 : 0 ≤ x) (h1 : x < 1) :
    riskOfForm headCurve x = 0 := by
  simp only [headCurve, riskOfForm]
  rcases eq_or_lt_of_le h0 with h | h
  · rw [if_pos (le_of_eq h.symm)]
  · rw [if_neg (not_le.mpr h)]
    have hlog : Real.log x < 0 := Real.log_neg h h1
    have hz : (Real.log x - 7.45231) / 0.73998 < -8 := by
      rw [div_lt_iff (by norm_num : (0 : ℝ) < 0.73998)]
      linarith
    rw [if_neg (by push_neg; linarith), if_pos hz]

/-! ## Bounds on the HIC15 search -/

theorem slice_avg_bounds {a : List ℝ} {M : ℝ} (h : ∀ x ∈ a, 0 ≤ x ∧ x ≤ M)
    {i j : ℕ} (hij : i < j) (hj : j ≤ a.length) :
    0 ≤ ((a.drop i).take (j - i)).sum / ((j - i : ℕ) : ℝ) ∧
      ((a.drop i).take (j - i)).sum / ((j - i : ℕ) : ℝ) ≤ M := by
  have hsub : ∀ x ∈ (a.drop i).take (j - i), 0 ≤ x ∧ x ≤ M := fun x hx =>
    h x (List.drop_subset i a (List.take_subset _ _ hx))
  have hlen : ((a.drop i).take (j - i)).length = j - i := by
    rw [List.length_take, List.length_drop]
    omega
  have hpos : (0 : ℝ) < ((j - i : ℕ) : ℝ) := by
    have h2 : 0 < j - i := by omega
    exact_mod_cast h2
  constructor
  · exact div_nonneg (List.sum_nonneg fun x hx => (hsub x hx).1) hpos.le
  · rw [div_le_iff hpos]
    have hs := List.sum_le_card_nsmul ((a.drop i).take (j - i)) M
      (fun x hx => (hsub x hx).2)
    rw [hlen] at hs
    simpa [nsmul_eq_mul, mul_comm] using hs

theorem hic15_nonneg (t a : List ℝ) : 0 ≤ hic15 t a := by
  by_cases hdt : t.getD 1 0 - t.getD 0 0 ≤ 0
  · simp only [hic15]
    rw [if_pos hdt]
  · rw [hic15_canon t a (not_le.mp hdt)]
    exact nestedMaxFold_ge_init _ _ _ _ _

theorem hic15_upper {t a : List ℝ} {M : ℝ} (hM : 0 ≤ M)
    (h : ∀ x ∈ a, 0 ≤ x ∧ x ≤ M) :
    hic15 t a ≤ 0.015 * M ^ (2.5 : ℝ) := by
  have hB : (0 : ℝ) ≤ 0.015 * M ^ (2.5 : ℝ) :=
    mul_nonneg (by norm_num) (Real.rpow_nonneg hM _)
  by_cases hdt : t.getD 1 0 - t.getD 0 0 ≤ 0
  · simp only [hic15]
    rw [if_pos hdt]
    exact hB
  · rw [hic15_canon t a (not_le.mp hdt)]
    refine nestedMaxFold_le
      (fun i j => 0 < t.getD j 0 - t.getD i 0 ∧
        t.getD j 0 - t.getD i 0 ≤ 0.015)
      (fun i j => (t.getD j 0 - t.getD i 0) *
        (((a.drop i).take (j - i)).sum / ((j - i : ℕ) : ℝ)) ^ (2.5 : ℝ))
      (fun i => List.range' (i + 1)
        (min (i + max 2 (Int.toNat ⌊0.015 / (t.getD 1 0 - t.getD 0 0)⌋))
          (a.length - 1) - i))
      hB ?_
    intro i hi j hj hA
    have hi1 : i < a.length - 1 := List.mem_range.mp hi
    have hj1 := List.mem_range'_1.mp hj
    have hij : i < j := by omega
    have hjlen : j ≤ a.length := by omega
    obtain ⟨havg0, havgM⟩ := slice_avg_bounds h hij hjlen
    have hrp : (((a.drop i).take (j - i)).sum / ((j - i : ℕ) : ℝ)) ^
        (2.5 : ℝ) ≤ M ^ (2.5 : ℝ) :=
      Real.rpow_le_rpow havg0 havgM (by norm_num)
    have hrpn : 0 ≤ (((a.drop i).take (j - i)).sum / ((j - i : ℕ) : ℝ)) ^
        (2.5 : ℝ) := Real.rpow_nonneg havg0 _
    exact mul_le_mul hA.2 hrp hrpn (by norm_num)

/-! ## Evaluation of the occupant pulse on the frontal 0.1 s grid -/

theorem nSamples_tenth : nSamples 0.1 10000 = 1000 := by
  unfold nSamples
  have hc : (0.1 : ℝ) * ((10000 : ℕ) : ℝ) = 1000 := by norm_num
  rw [hc]
  have hf : ⌊(1000 : ℝ)⌋ = 1000 := by
    rw [Int.floor_eq_iff]
    norm_num
  rw [hf]
  decide

theorem aOcc_eq (inp : CrashInputs) (hT : pulseDuration inp = 0.1) :
    aOcc inp = (List.range 1000).map fun i : ℕ =>
      restraintTransferFactor inp *
        (peakAcceleration (deltaV inp) 0.1 *
          Real.sin (π * (i : ℝ) / 999)) := by
  unfold aOcc aVehicle crashPulse linspace
  rw [hT]
  simp only [nSamples_tenth]
  rw [List.map_map, List.map_map]
  refine List.map_congr_left fun i _ => ?_
  simp only [Function.comp]
  have hang : π * ((i : ℝ) * 0.1 / (((1000 : ℕ) : ℝ) - 1)) / 0.1 =
      π * (i : ℝ) / 999 := by
    norm_num
    ring
  rw [hang]

theorem aOcc_bounds {inp : CrashInputs} (hT : pulseDuration inp = 0.1)
    (hα : 0 ≤ restraintTransferFactor inp)
    (hap : 0 ≤ peakAcceleration (deltaV inp) 0.1) :
    ∀ x ∈ aOcc inp, 0 ≤ x ∧
      x ≤ restraintTransferFactor inp * peakAcceleration (deltaV inp) 0.1 := by
  intro x hx
  rw [aOcc_eq inp hT] at hx
  rcases List.mem_map.mp hx with ⟨i, hi, rfl⟩
  have hi9 : (i : ℝ) ≤ 999 := by
    have h1 : i ≤ 999 := by have := List.mem_range.mp hi; omega
    exact_mod_cast h1
  have hθ0 : 0 ≤ π * (i : ℝ) / 999 := by positivity
  have hθπ : π * (i : ℝ) / 999 ≤ π := by
    rw [div_le_iff (by norm_num : (0 : ℝ) < 999)]
    nlinarith [Real.pi_pos]
  have hs0 : 0 ≤ Real.sin (π * (i : ℝ) / 999) :=
    Real.sin_nonneg_of_nonneg_of_le_pi hθ0 hθπ
  have hs1 : Real.sin (π * (i : ℝ) / 999) ≤ 1 := Real.sin_le_one _
  constructor
  · positivity
  · calc restraintTransferFactor inp *
        (peakAcceleration (deltaV inp) 0.1 * Real.sin (π * (i : ℝ) / 999)) ≤
          restraintTransferFactor inp * (peakAcceleration (deltaV inp) 0.1 * 1) :=
        mul_le_mul_of_nonneg_left (mul_le_mul_of_nonneg_left hs1 hap) hα
      _ = restraintTransferFactor inp * peakAcceleration (deltaV inp) 0.1 := by
        ring

theorem aOccPeak_le {inp : CrashInputs} (hT : pulseDuration inp = 0.1)
    (hα : 0 ≤ restraintTransferFactor inp)
    (hap : 0 ≤ peakAcceleration (deltaV inp) 0.1) :
    aOccPeak inp ≤
      restraintTransferFactor inp * peakAcceleration (deltaV inp) 0.1 :=
  npMax_le (mul_nonneg hα hap) (fun x hx => (aOcc_bounds hT hα hap x hx).2)

theorem aOccPeak_ge {inp : CrashInputs} (hT : pulseDuration inp = 0.1)
    (hα : 0 ≤ restraintTransferFactor inp)
    (hap : 0 ≤ peakAcceleration (deltaV inp) 0.1) :
    restraintTransferFactor inp * peakAcceleration (deltaV inp) 0.1 * 0.9999 ≤
      aOccPeak inp := by
  have hmem : restraintTransferFactor inp *
      (peakAcceleration (deltaV inp) 0.1 *
        Real.sin (π * ((499 : ℕ) : ℝ) / 999)) ∈ aOcc inp := by
    rw [aOcc_eq inp hT]
    exact List.mem_map.mpr ⟨499, List.mem_range.mpr (by norm_num), rfl⟩
  refine le_trans ?_ (le_npMax hmem)
  have hsin := sin_grid_peak
  have h499 : ((499 : ℕ) : ℝ) = 499 := by norm_num
  rw [h499]
  nlinarith [mul_nonneg hα hap]

theorem aOccG_bounds {inp : CrashInputs} (hT : pulseDuration inp = 0.1)
    (hα : 0 ≤ restraintTransferFactor inp)
    (hap : 0 ≤ peakAcceleration (deltaV inp) 0.1) :
    ∀ y ∈ aOccG inp, 0 ≤ y ∧ y ≤
      restraintTransferFactor inp * peakAcceleration (deltaV inp) 0.1 /
        GRAVITY := by
  intro y hy
  rcases List.mem_map.mp hy with ⟨x, hx, rfl⟩
  obtain ⟨h0, h1⟩ := aOcc_bounds hT hα hap x hx
  have hG : (0 : ℝ) < GRAVITY := by norm_num [GRAVITY]
  exact ⟨div_nonneg h0 hG.le, by gcongr⟩

theorem pHead_zero {inp : CrashInputs} (hT : pulseDuration inp = 0.1)
    (hα : 0 ≤ restraintTransferFactor inp)
    (hap : 0 ≤ peakAcceleration (deltaV inp) 0.1)
    (hsmall : restraintTransferFactor inp * peakAcceleration (deltaV inp) 0.1 /
      GRAVITY ≤ 1.69) :
    pHead inp = 0 := by
  set M := restraintTransferFactor inp * peakAcceleration (deltaV inp) 0.1 /
    GRAVITY with hM
  have hM0 : 0 ≤ M := div_nonneg (mul_nonneg hα hap) (by norm_num [GRAVITY])
  have hic_le : hicOf inp ≤ 0.015 * M ^ (2.5 : ℝ) :=
    hic15_upper hM0 (aOccG_bounds hT hα hap)
  have hlt : 0.015 * M ^ (2.5 : ℝ) < 1 := by
    rcases le_or_lt M 1 with h | h
    · have h25 : M ^ (2.5 : ℝ) ≤ 1 := Real.rpow_le_one hM0 h (by norm_num)
      nlinarith
    · have h25 : M ^ (2.5 : ℝ) ≤ M ^ (3 : ℝ) :=
        Real.rpow_le_rpow_of_exponent_le h.le (by norm_num)
      have h3 : M ^ (3 : ℝ) = M ^ (3 : ℕ) := by
        rw [show (3 : ℝ) = ((3 : ℕ) : ℝ) by norm_num, Real.rpow_natCast]
      have hcube : M ^ (3 : ℕ) ≤ (1.69 : ℝ) ^ (3 : ℕ) :=
        pow_le_pow_left hM0 hsmall 3
      have hnum : ((1.69 : ℝ)) ^ (3 : ℕ) ≤ 4.83 := by norm_num
      rw [h3] at h25
      linarith
  exact probit_head_zero (hic15_nonneg _ _) (lt_of_le_of_lt hic_le hlt)

theorem aOcc_zero_speed {inp : CrashInputs} (hT : pulseDuration inp = 0.1)
    (hdv : deltaV inp = 0) : ∀ x ∈ aOcc inp, x = 0 := by
  intro x hx
  rw [aOcc_eq inp hT] at hx
  rcases List.mem_map.mp hx with ⟨i, _, rfl⟩
  unfold peakAcceleration
  rw [hdv]
  norm_num

theorem aOccPeak_zero_speed {inp : CrashInputs} (hT : pulseDuration inp = 0.1)
    (hdv : deltaV inp = 0) : aOccPeak inp = 0 := by
  have hall := aOcc_zero_speed hT hdv
  have hmem : (0 : ℝ) ∈ aOcc inp := by
    rw [aOcc_eq inp hT]
    refine List.mem_map.mpr ⟨0, List.mem_range.mpr (by norm_num), ?_⟩
    unfold peakAcceleration
    rw [hdv]
    norm_num
  exact le_antisymm (npMax_le le_rfl (fun x hx => (hall x hx).le))
    (le_npMax hmem)

/-! ## Evaluation of the Nij channel -/

theorem computeNij_zero_overrides (inp : CrashInputs) (t a : List ℝ)
    (hk : inp.neck_k_override = some 0) (hc : inp.neck_c_override = some 0) :
    computeNij inp t a = 0 := by
  simp only [computeNij, hk, hc]
  split_ifs with h1 h2
  · rfl
  · rfl
  · refine (foldl_preserve (fun st : ℝ × ℝ × ℝ => st.2.2 = 0) _ a (0, 0, 0)
      rfl ?_)
    intro st ai _ hpeak
    simp only [nijStep, zero_mul, mul_zero, add_zero, zero_add, zero_div]
    rw [hpeak]
    norm_num

theorem computeNij_zero_accel (inp : CrashInputs) (t a : List ℝ)
    (ha : ∀ x ∈ a, x = 0) : computeNij inp t a = 0 := by
  simp only [computeNij]
  split_ifs with h1 h2
  · rfl
  · rfl
  · have key : ∀ f : ℝ × ℝ × ℝ → ℝ → ℝ × ℝ × ℝ,
        (∀ st ai, ai ∈ a → st = ((0 : ℝ), (0 : ℝ), (0 : ℝ)) →
          f st ai = (0, 0, 0)) →
        (a.foldl f ((0 : ℝ), (0 : ℝ), (0 : ℝ))).2.2 = 0 := by
      intro f hf
      have hfold := foldl_preserve
        (fun st : ℝ × ℝ × ℝ => st = (0, 0, 0)) f a (0, 0, 0) rfl
        (fun m x hx hm => hf m x hx hm)
      rw [hfold]
    apply key
    intro st ai hai hst
    rw [hst, ha ai hai]
    simp only [nijStep, mul_zero, zero_mul, add_zero, zero_add, neg_zero,
      zero_div]
    norm_num

/-! ## Combination step with a zero head channel -/

theorem logistic_val_range (z : ℝ) :
    0 ≤ 1 / (1 + Real.exp (-z)) ∧ 1 / (1 + Real.exp (-z)) ≤ 1 := by
  constructor
  · positivity
  · rw [div_le_one (by positivity)]
    linarith [Real.exp_pos (-z)]

theorem one_sub_logistic_ge {z : ℝ} (hz : z ≤ 6) :
    (1e-12 : ℝ) ≤ 1 - 1 / (1 + Real.exp (-z)) := by
  rw [one_sub_logistic]
  have h1 : Real.exp z ≤ 404 := le_trans (Real.exp_le_exp.mpr hz) exp_six_lt.le
  rw [le_div_iff (by positivity)]
  nlinarith [Real.exp_pos z]

theorem combine_head_zero (p2 p3 p4 : ℝ)
    (h2 : 0 ≤ p2 ∧ p2 ≤ 1) (h3 : 0 ≤ p3 ∧ p3 ≤ 1) (h4 : 0 ≤ p4 ∧ p4 ≤ 1)
    (m2 : (1e-12 : ℝ) ≤ 1 - p2) (m3 : (1e-12 : ℝ) ≤ 1 - p3)
    (m4 : (1e-12 : ℝ) ≤ 1 - p4) :
    combine [0, p2, p3, p4] 0.75 =
      1 - ((1 - p2) * ((1 - p3) * (1 - p4))) ^ (0.75 : ℝ) := by
  rw [combine_eval]
  have c0 : clamp01 0 = 0 := by norm_num [clamp01]
  have c2 : clamp01 p2 = p2 := by rw [clamp01, max_eq_right h2.1, min_eq_right h2.2]
  have c3 : clamp01 p3 = p3 := by rw [clamp01, max_eq_right h3.1, min_eq_right h3.2]
  have c4 : clamp01 p4 = p4 := by rw [clamp01, max_eq_right h4.1, min_eq_right h4.2]
  rw [c0, c2, c3, c4, max_eq_right (by norm_num : (1e-12 : ℝ) ≤ 1 - 0),
    max_eq_right m2, max_eq_right m3, max_eq_right m4,
    show min (1 : ℝ) (max 0.1 0.75) = 0.75 by norm_num,
    show (1 : ℝ) - 0 = 1 by norm_num,
    show (1 : ℝ) * (1 - p2) * (1 - p3) * (1 - p4) =
      (1 - p2) * ((1 - p3) * (1 - p4)) by ring]

/-- The real-arithmetic heart of the risk comparisons: if `a1 ≤ c`,
`b1 ≥ 100` and `b0 ≥ (1 + d) * b1` with `c < 100 * (d - c)`, then
`(1+a1)(1+b1) < (1+a0)(1+b0)`. -/
theorem denom_product_lt {a1 b1 a0 b0 c d : ℝ}
    (ha1 : a1 ≤ c) (hc : 0 ≤ c) (ha0 : 0 ≤ a0) (hb1 : 100 ≤ b1)
    (hb0 : (1 + d) * b1 ≤ b0) (hd : c < 100 * (d - c)) :
    (1 + a1) * (1 + b1) < (1 + a0) * (1 + b0) := by
  have hb1p : (0 : ℝ) ≤ b1 := by linarith
  have hdc : 0 ≤ d - c := by nlinarith
  have h1 : (1 + a1) * (1 + b1) ≤ (1 + c) * (1 + b1) := by nlinarith
  have hb0p : (0 : ℝ) ≤ b0 := by nlinarith
  have h2 : 1 + b0 ≤ (1 + a0) * (1 + b0) := by nlinarith
  have h3 : (d - c) * 100 ≤ (d - c) * b1 := by nlinarith
  nlinarith

/-! ## Concrete input records: field evaluations -/

theorem strLower_frontal : strLower "frontal" = "frontal" := by decide

theorem strLower_average : strLower "average" = "average" := by decide

theorem strLower_driver : strLower "driver" = "driver" := by decide

theorem beltOnly_side (v : ℝ) : (beltOnlyInputs v).crashSide = "frontal" :=
  show strLower "frontal" = "frontal" from strLower_frontal

theorem unbelted_side (v : ℝ) : (unbeltedInputs v).crashSide = "frontal" :=
  show strLower "frontal" = "frontal" from strLower_frontal

theorem zeroSpeed_side : zeroSpeedInputs.crashSide = "frontal" :=
  show strLower "frontal" = "frontal" from strLower_frontal

theorem beltOnly_T (v : ℝ) : pulseDuration (beltOnlyInputs v) = 0.1 := by
  unfold pulseDuration
  rw [beltOnly_side]
  norm_num [pulseDurationFor]

theorem unbelted_T (v : ℝ) : pulseDuration (unbeltedInputs v) = 0.1 := by
  unfold pulseDuration
  rw [unbelted_side]
  norm_num [pulseDurationFor]

theorem zeroSpeed_T : pulseDuration zeroSpeedInputs = 0.1 := by
  unfold pulseDuration
  rw [zeroSpeed_side]
  norm_num [pulseDurationFor]

theorem beltOnly_dv (v : ℝ) : deltaV (beltOnlyInputs v) = v := by
  simp [deltaV, beltOnlyInputs]
  norm_num

theorem unbelted_dv (v : ℝ) : deltaV (unbeltedInputs v) = v := by
  simp [deltaV, unbeltedInputs, beltOnlyInputs]
  norm_num

theorem zeroSpeed_dv : deltaV zeroSpeedInputs = 0 := by
  simp [deltaV, zeroSpeedInputs]

theorem beltOnly_alpha (v : ℝ) :
    restraintTransferFactor (beltOnlyInputs v) = 0.75 := by
  simp only [restraintTransferFactor, beltOnly_side]
  norm_num [beltOnlyInputs]

theorem unbelted_alpha (v : ℝ) :
    restraintTransferFactor (unbeltedInputs v) = 1.05 := by
  simp only [restraintTransferFactor, unbelted_side]
  norm_num [unbeltedInputs, beltOnlyInputs]

theorem zeroSpeed_alpha : restraintTransferFactor zeroSpeedInputs = 0.55 := by
  simp only [restraintTransferFactor, zeroSpeed_side]
  norm_num [zeroSpeedInputs]

theorem beltOnly_torso (v : ℝ) : (beltOnlyInputs v).torsoMass = 35 := by
  simp [CrashInputs.torsoMass, beltOnlyInputs, TORSO_MASS_FRACTION,
    REFERENCE_TORSO_MASS, REFERENCE_BODY_MASS]
  norm_num

theorem unbelted_torso (v : ℝ) : (unbeltedInputs v).torsoMass = 35 := by
  simp [CrashInputs.torsoMass, unbeltedInputs, beltOnlyInputs,
    TORSO_MASS_FRACTION, REFERENCE_TORSO_MASS, REFERENCE_BODY_MASS]
  norm_num

theorem beltOnly_leg (v : ℝ) : (beltOnlyInputs v).legMass = 10 := by
  simp [CrashInputs.legMass, beltOnlyInputs, LEG_MASS_FRACTION,
    REFERENCE_LEG_MASS, REFERENCE_BODY_MASS]
  norm_num

theorem unbelted_leg (v : ℝ) : (unbeltedInputs v).legMass = 10 := by
  simp [CrashInputs.legMass, unbeltedInputs, beltOnlyInputs,
    LEG_MASS_FRACTION, REFERENCE_LEG_MASS, REFERENCE_BODY_MASS]
  norm_num

theorem beltOnly_mm (v : ℝ) :
    chestDeflectionMM (beltOnlyInputs v) =
      0.56 * aOccPeak (beltOnlyInputs v) := by
  simp only [chestDeflectionMM, computeChestDeflection, beltOnly_torso]
  norm_num [beltOnlyInputs, DEFAULT_BELT_STIFFNESS]
  ring

theorem unbelted_mm (v : ℝ) :
    chestDeflectionMM (unbeltedInputs v) =
      0.56 * aOccPeak (unbeltedInputs v) := by
  simp only [chestDeflectionMM, computeChestDeflection, unbelted_torso]
  norm_num [unbeltedInputs, beltOnlyInputs, DEFAULT_BELT_STIFFNESS]
  ring

theorem beltOnly_kn (v : ℝ) :
    femurForceKN (beltOnlyInputs v) = 0.01 * aOccPeak (beltOnlyInputs v) := by
  have hpelvis : strLower (beltOnlyInputs v).pelvis_lap_belt_fit = "average" :=
    show strLower "average" = "average" from strLower_average
  have hpos : strLower (beltOnlyInputs v).seat_position = "driver" :=
    show strLower "driver" = "driver" from strLower_driver
  simp only [femurForceKN, computeFemurLoad, beltOnly_leg, hpelvis, hpos]
  rw [if_neg (by decide : ¬("average" : String) = "poor")]
  simp only [if_true]
  rw [if_neg (by decide : ¬("driver" : String) = "passenger")]
  ring

theorem unbelted_kn (v : ℝ) :
    femurForceKN (unbeltedInputs v) = 0.01 * aOccPeak (unbeltedInputs v) := by
  have hpelvis : strLower (unbeltedInputs v).pelvis_lap_belt_fit = "average" :=
    show strLower "average" = "average" from strLower_average
  have hpos : strLower (unbeltedInputs v).seat_position = "driver" :=
    show strLower "driver" = "driver" from strLower_driver
  simp only [femurForceKN, computeFemurLoad, unbelted_leg, hpelvis, hpos]
  rw [if_neg (by decide : ¬("average" : String) = "poor")]
  simp only [if_true]
  rw [if_neg (by decide : ¬("driver" : String) = "passenger")]
  ring

theorem computeChestDeflection_zero (inp : CrashInputs) :
    computeChestDeflection inp 0 = 0 := by
  simp only [computeChestDeflection]
  split_ifs <;> ring

theorem computeFemurLoad_zero (inp : CrashInputs) :
    computeFemurLoad inp 0 = 0 := by
  simp only [computeFemurLoad]
  ring

theorem beltOnly_cf (v : ℝ) :
    (beltOnlyInputs v).injury_correlation_factor = 0.75 := rfl

theorem unbelted_cf (v : ℝ) :
    (unbeltedInputs v).injury_correlation_factor = 0.75 := rfl

theorem zeroSpeed_cf : zeroSpeedInputs.injury_correlation_factor = 0.75 := rfl

/-! ## Channel probability formulas -/

theorem pNeck_of_nij_zero {inp : CrashInputs} (h : nijOf inp = 0) :
    pNeck inp = 1 / (1 + Real.exp (-(-3.227))) := by
  unfold pNeck
  rw [h]
  unfold neckCurve
  rw [logistic_eval (-3.227) 1.969 0 (by norm_num) (by norm_num)]
  norm_num

theorem pThorax_formula {inp : CrashInputs} {X : ℝ}
    (hmm : chestDeflectionMM inp = X) (hX0 : 0 ≤ X) (hX1 : X ≤ 12) :
    pThorax inp = 1 / (1 + Real.exp (-(-4.9522 + 0.1657 * X))) := by
  unfold pThorax
  rw [hmm]
  exact logistic_eval _ _ _ (by nlinarith) (by nlinarith)

theorem pFemur_formula {inp : CrashInputs} {X : ℝ}
    (hkn : femurForceKN inp = X) (hX0 : 0 ≤ X) (hX1 : X ≤ 1) :
    pFemur inp = 1 / (1 + Real.exp (-(5.7949 + -0.7619 * X))) := by
  unfold pFemur
  rw [hkn]
  exact logistic_eval _ _ _ (by nlinarith) (by nlinarith)

theorem pBaseline_formula {inp : CrashInputs} {zn zt zf : ℝ}
    (hhead : pHead inp = 0)
    (hcf : inp.injury_correlation_factor = 0.75)
    (hneck : pNeck inp = 1 / (1 + Real.exp (-zn)))
    (hth : pThorax inp = 1 / (1 + Real.exp (-zt)))
    (hf : pFemur inp = 1 / (1 + Real.exp (-zf)))
    (hzn : zn ≤ 6) (hzt : zt ≤ 6) (hzf : zf ≤ 6) :
    pBaseline inp = 1 -
      (1 / (1 + Real.exp zn) * (1 / (1 + Real.exp zt) *
        (1 / (1 + Real.exp zf)))) ^ (0.75 : ℝ) := by
  unfold pBaseline
  rw [hhead, hneck, hth, hf, hcf,
    combine_head_zero _ _ _ (logistic_val_range zn) (logistic_val_range zt)
      (logistic_val_range zf) (one_sub_logistic_ge hzn)
      (one_sub_logistic_ge hzt) (one_sub_logistic_ge hzf),
    one_sub_logistic zn, one_sub_logistic zt, one_sub_logistic zf]

/-! ## Claim C1: behaviour at zero impact speed -/

/-- C1 (code bug evaluation): at impact speed 0 m/s (frontal crash, all
other inputs at their defaults) the overall risk score is ABOVE 50, not 0:
the femur curve `beta0 = 5.7949`, `beta1 = -0.7619` assigns probability
`1/(1+exp(-5.7949)) ≈ 0.997` to zero femur force, which the correlated
union turns into a risk score of ≈ 98.7. -/
theorem zero_speed_risk_score_over_fifty : 50 < riskScore zeroSpeedInputs := by
  have hT := zeroSpeed_T
  have hdv := zeroSpeed_dv
  have hα := zeroSpeed_alpha
  have hαnn : 0 ≤ restraintTransferFactor zeroSpeedInputs := by
    rw [hα]; norm_num
  have hap : peakAcceleration (deltaV zeroSpeedInputs) 0.1 = 0 := by
    rw [zeroSpeed_dv]; unfold peakAcceleration; norm_num
  have hapnn : 0 ≤ peakAcceleration (deltaV zeroSpeedInputs) 0.1 := by
    rw [hap]
  have hpk : aOccPeak zeroSpeedInputs = 0 := aOccPeak_zero_speed hT hdv
  have hH : pHead zeroSpeedInputs = 0 := by
    refine pHead_zero hT hαnn hapnn ?_
    rw [hap]
    norm_num
  have hnij : nijOf zeroSpeedInputs = 0 :=
    computeNij_zero_accel _ _ _ (aOcc_zero_speed hT hdv)
  have hN := pNeck_of_nij_zero hnij
  have hmm : chestDeflectionMM zeroSpeedInputs = 0 := by
    unfold chestDeflectionMM
    rw [hpk, computeChestDeflection_zero]
    norm_num
  have hTh := pThorax_formula hmm (le_refl 0) (by norm_num)
  have hkn : femurForceKN zeroSpeedInputs = 0 := by
    unfold femurForceKN
    rw [hpk, computeFemurLoad_zero]
    norm_num
  have hF := pFemur_formula hkn (le_refl 0) (by norm_num)
  have hB := pBaseline_formula hH zeroSpeed_cf hN hTh hF (by norm_num)
    (by norm_num) (by norm_num)
  unfold riskScore
  rw [hB]
  set P : ℝ := 1 / (1 + Real.exp (-3.227)) *
    (1 / (1 + Real.exp (-4.9522 + 0.1657 * 0)) *
      (1 / (1 + Real.exp (5.7949 + -0.7619 * 0)))) with hPdef
  have hPnn : 0 ≤ P := by positivity
  have hfle : (1 : ℝ) / (1 + Real.exp (5.7949 + -0.7619 * 0)) ≤ 1 / 100 := by
    have h5 : (5 : ℝ) ≤ 5.7949 + -0.7619 * 0 := by norm_num
    have h100 : (100 : ℝ) ≤ Real.exp (5.7949 + -0.7619 * 0) :=
      le_trans exp_five_gt.le (Real.exp_le_exp.mpr h5)
    rw [div_le_div_iff (by positivity) (by norm_num)]
    linarith
  have hPle : P ≤ 1 / 100 := by
    have hn1 : (1 : ℝ) / (1 + Real.exp (-3.227)) ≤ 1 := by
      rw [div_le_one (by positivity)]
      linarith [Real.exp_pos (-3.227 : ℝ)]
    have ht1 : (1 : ℝ) / (1 + Real.exp (-4.9522 + 0.1657 * 0)) ≤ 1 := by
      rw [div_le_one (by positivity)]
      linarith [Real.exp_pos (-4.9522 + 0.1657 * 0 : ℝ)]
    calc P ≤ 1 * (1 * (1 / 100)) := by
          refine mul_le_mul hn1 ?_ (by positivity) (by norm_num)
          exact mul_le_mul ht1 hfle (by positivity) (by norm_num)
      _ = 1 / 100 := by ring
  have hrp : P ^ (0.75 : ℝ) < 1 / 2 := by
    have h1 : P ^ (0.75 : ℝ) ≤ ((1 : ℝ) / 100) ^ (0.75 : ℝ) :=
      Real.rpow_le_rpow hPnn hPle (by norm_num)
    have h2 : ((1 : ℝ) / 100) ^ (0.75 : ℝ) < 1 / 2 := by
      by_contra hcon
      push_neg at hcon
      have h4 : ((1 / 2 : ℝ)) ^ (4 : ℕ) ≤
          (((1 : ℝ) / 100) ^ (0.75 : ℝ)) ^ (4 : ℕ) :=
        pow_le_pow_left (by norm_num) hcon 4
      have h5 : (((1 : ℝ) / 100) ^ (0.75 : ℝ)) ^ (4 : ℕ) =
          ((1 : ℝ) / 100) ^ (3 : ℕ) := by
        have hcast : (((1 : ℝ) / 100) ^ (0.75 : ℝ)) ^ ((4 : ℕ) : ℝ) =
            ((1 : ℝ) / 100) ^ ((3 : ℕ) : ℝ) := by
          rw [← Real.rpow_mul (by norm_num : (0 : ℝ) ≤ 1 / 100)]
          norm_num
        calc (((1 : ℝ) / 100) ^ (0.75 : ℝ)) ^ (4 : ℕ) =
            (((1 : ℝ) / 100) ^ (0.75 : ℝ)) ^ ((4 : ℕ) : ℝ) :=
              (Real.rpow_natCast _ 4).symm
          _ = ((1 : ℝ) / 100) ^ ((3 : ℕ) : ℝ) := hcast
          _ = ((1 : ℝ) / 100) ^ (3 : ℕ) := Real.rpow_natCast _ 3
      rw [h5] at h4
      norm_num at h4
    exact lt_of_le_of_lt h1 h2
  linarith

/-! ## Claim C2: monotonicity of the overall risk score in impact speed -/

set_option maxHeartbeats 1000000 in
/-- C2 (code bug evaluation): with everything else fixed (frontal, belt
only, no airbags, neck overrides zeroed so that channel is constant),
raising the impact speed from 0 to 1 m/s strictly DECREASES the overall
risk score: the femur channel's inverted logistic (`beta1 = -0.7619`)
drops faster than the thorax channel grows. -/
theorem speed_increase_decreases_risk_score :
    riskScore (beltOnlyInputs 1) < riskScore (beltOnlyInputs 0) := by
  have hπl : (3.141592 : ℝ) ≤ π := Real.pi_gt_3141592.le
  have hπu : π ≤ 3.141593 := Real.pi_lt_3141593.le
  -- the v = 1 evaluation
  have hT1 := beltOnly_T 1
  have hα1 := beltOnly_alpha 1
  have hαnn1 : 0 ≤ restraintTransferFactor (beltOnlyInputs 1) := by
    rw [hα1]; norm_num
  have hdv1 := beltOnly_dv 1
  have hap1 : peakAcceleration (deltaV (beltOnlyInputs 1)) 0.1 = 5 * π := by
    rw [hdv1]; unfold peakAcceleration; ring
  have hapnn1 : 0 ≤ peakAcceleration (deltaV (beltOnlyInputs 1)) 0.1 := by
    rw [hap1]; positivity
  have hx1ub : aOccPeak (beltOnlyInputs 1) ≤ 11.781 := by
    have h := aOccPeak_le hT1 hαnn1 hapnn1
    rw [hα1, hap1] at h
    nlinarith
  have hx1lb : (11.778 : ℝ) ≤ aOccPeak (beltOnlyInputs 1) := by
    have h := aOccPeak_ge hT1 hαnn1 hapnn1
    rw [hα1, hap1] at h
    nlinarith
  have hx1nn : 0 ≤ aOccPeak (beltOnlyInputs 1) := by linarith
  have hG : (0 : ℝ) < GRAVITY := by norm_num [GRAVITY]
  have hH1 : pHead (beltOnlyInputs 1) = 0 := by
    refine pHead_zero hT1 hαnn1 hapnn1 ?_
    rw [hα1, hap1, div_le_iff hG]
    rw [show GRAVITY = 9.80665 from rfl]
    nlinarith
  have hnij1 : nijOf (beltOnlyInputs 1) = 0 :=
    computeNij_zero_overrides _ _ _ rfl rfl
  have hN1 := pNeck_of_nij_zero hnij1
  have hTh1 := pThorax_formula (beltOnly_mm 1)
    (mul_nonneg (by norm_num) hx1nn) (by nlinarith)
  have hF1 := pFemur_formula (beltOnly_kn 1)
    (mul_nonneg (by norm_num) hx1nn) (by nlinarith)
  have hB1 := pBaseline_formula hH1 (beltOnly_cf 1) hN1 hTh1 hF1
    (by norm_num) (by nlinarith) (by nlinarith)
  -- the v = 0 evaluation
  have hT0 := beltOnly_T 0
  have hα0 := beltOnly_alpha 0
  have hαnn0 : 0 ≤ restraintTransferFactor (beltOnlyInputs 0) := by
    rw [hα0]; norm_num
  have hdv0 : deltaV (beltOnlyInputs 0) = 0 := beltOnly_dv 0
  have hap0 : peakAcceleration (deltaV (beltOnlyInputs 0)) 0.1 = 0 := by
    rw [hdv0]; unfold peakAcceleration; norm_num
  have hapnn0 : 0 ≤ peakAcceleration (deltaV (beltOnlyInputs 0)) 0.1 := by
    rw [hap0]
  have hpk0 : aOccPeak (beltOnlyInputs 0) = 0 := aOccPeak_zero_speed hT0 hdv0
  have hH0 : pHead (beltOnlyInputs 0) = 0 := by
    refine pHead_zero hT0 hαnn0 hapnn0 ?_
    rw [hα0, hap0]
    norm_num
  have hnij0 : nijOf (beltOnlyInputs 0) = 0 :=
    computeNij_zero_overrides _ _ _ rfl rfl
  have hN0 := pNeck_of_nij_zero hnij0
  have hmm0 : chestDeflectionMM (beltOnlyInputs 0) = 0.56 * 0 := by
    rw [beltOnly_mm 0, hpk0]
  have hTh0 := pThorax_formula hmm0 (by norm_num) (by norm_num)
  have hkn0 : femurForceKN (beltOnlyInputs 0) = 0.01 * 0 := by
    rw [beltOnly_kn 0, hpk0]
  have hF0 := pFemur_formula hkn0 (by norm_num) (by norm_num)
  have hB0 := pBaseline_formula hH0 (beltOnly_cf 0) hN0 hTh0 hF0
    (by norm_num) (by norm_num) (by norm_num)
  -- compare
  unfold riskScore
  rw [hB0, hB1]
  have hD : (1 + Real.exp (-4.9522 + 0.1657 * (0.56 * aOccPeak (beltOnlyInputs 1)))) *
        (1 + Real.exp (5.7949 + -0.7619 * (0.01 * aOccPeak (beltOnlyInputs 1)))) <
      (1 + Real.exp (-4.9522 + 0.1657 * (0.56 * 0))) *
        (1 + Real.exp (5.7949 + -0.7619 * (0.01 * 0))) := by
    have hzt1b : -4.9522 + 0.1657 * (0.56 * aOccPeak (beltOnlyInputs 1)) ≤
        -3.859 := by nlinarith
    have hexp859 : (43.4 : ℝ) ≤ Real.exp 3.859 := by
      rw [show (3.859 : ℝ) = 3 + 0.859 by norm_num, Real.exp_add]
      have ha := one_add_quarter_pow_le_exp 0.859 (by norm_num)
      have hb : (2.17 : ℝ) ≤ (1 + 0.859 / 4) ^ (4 : ℕ) := by norm_num
      have hc : (2.17 : ℝ) ≤ Real.exp 0.859 := le_trans hb ha
      calc (43.4 : ℝ) ≤ 20.085 * 2.17 := by norm_num
        _ ≤ Real.exp 3 * Real.exp 0.859 :=
            mul_le_mul exp_three_gt.le hc (by norm_num) (Real.exp_pos 3).le
    have ha1 : Real.exp (-4.9522 + 0.1657 *
        (0.56 * aOccPeak (beltOnlyInputs 1))) ≤ 0.0231 := by
      have h3 := Real.exp_le_exp.mpr hzt1b
      have h6 : (Real.exp 3.859)⁻¹ ≤ (43.4 : ℝ)⁻¹ :=
        inv_le_inv_of_le (by norm_num) hexp859
      have h4 : Real.exp (-3.859 : ℝ) ≤ 0.0231 := by
        rw [Real.exp_neg]
        calc (Real.exp 3.859)⁻¹ ≤ (43.4 : ℝ)⁻¹ := h6
          _ ≤ 0.0231 := by norm_num
      linarith
    have hzf1b : (5 : ℝ) ≤ 5.7949 + -0.7619 *
        (0.01 * aOccPeak (beltOnlyInputs 1)) := by nlinarith
    have hb1 : (100 : ℝ) ≤ Real.exp (5.7949 + -0.7619 *
        (0.01 * aOccPeak (beltOnlyInputs 1))) :=
      le_trans exp_five_gt.le (Real.exp_le_exp.mpr hzf1b)
    have hdiff : (0.0897 : ℝ) ≤ (5.7949 + -0.7619 * (0.01 * 0)) -
        (5.7949 + -0.7619 * (0.01 * aOccPeak (beltOnlyInputs 1))) := by
      nlinarith
    have hsplit : Real.exp (5.7949 + -0.7619 * (0.01 * 0)) =
        Real.exp (5.7949 + -0.7619 * (0.01 * aOccPeak (beltOnlyInputs 1))) *
          Real.exp ((5.7949 + -0.7619 * (0.01 * 0)) -
            (5.7949 + -0.7619 * (0.01 * aOccPeak (beltOnlyInputs 1)))) := by
      rw [← Real.exp_add]
      ring_nf
    have hge := Real.add_one_le_exp ((5.7949 + -0.7619 * (0.01 * 0)) -
      (5.7949 + -0.7619 * (0.01 * aOccPeak (beltOnlyInputs 1))))
    have hb0 : (1 + 0.0897) * Real.exp (5.7949 + -0.7619 *
        (0.01 * aOccPeak (beltOnlyInputs 1))) ≤
        Real.exp (5.7949 + -0.7619 * (0.01 * 0)) := by
      nlinarith [Real.exp_pos (5.7949 + -0.7619 *
        (0.01 * aOccPeak (beltOnlyInputs 1)))]
    exact denom_product_lt ha1 (by norm_num)
      (Real.exp_pos (-4.9522 + 0.1657 * (0.56 * 0))).le hb1 hb0 (by norm_num)
  have hkey : 1 / (1 + Real.exp (-4.9522 + 0.1657 * (0.56 * 0))) *
        (1 / (1 + Real.exp (5.7949 + -0.7619 * (0.01 * 0)))) <
      1 / (1 + Real.exp (-4.9522 + 0.1657 *
          (0.56 * aOccPeak (beltOnlyInputs 1)))) *
        (1 / (1 + Real.exp (5.7949 + -0.7619 *
          (0.01 * aOccPeak (beltOnlyInputs 1))))) := by
    rw [div_mul_div_comm, div_mul_div_comm, one_mul]
    exact one_div_lt_one_div_of_lt (by positivity) hD
  have hkeyN : 1 / (1 + Real.exp (-3.227)) *
        (1 / (1 + Real.exp (-4.9522 + 0.1657 * (0.56 * 0))) *
          (1 / (1 + Real.exp (5.7949 + -0.7619 * (0.01 * 0))))) <
      1 / (1 + Real.exp (-3.227)) *
        (1 / (1 + Real.exp (-4.9522 + 0.1657 *
            (0.56 * aOccPeak (beltOnlyInputs 1)))) *
          (1 / (1 + Real.exp (5.7949 + -0.7619 *
            (0.01 * aOccPeak (beltOnlyInputs 1)))))) :=
    mul_lt_mul_of_pos_left hkey (by positivity)
  have h75 := Real.rpow_lt_rpow (by positivity) hkeyN
    (by norm_num : (0 : ℝ) < 0.75)
  linarith [h75]

/-! ## Claim C5: restraint ordering of the overall risk score -/

set_option maxHeartbeats 1000000 in
/-- C5 (code bug evaluation): at 1 m/s frontal with no airbags and the
neck channel held constant by zero overrides, removing the seatbelt
strictly LOWERS the overall risk score, violating the claimed ordering
risk(belted) < risk(unbelted): the inverted femur logistic rewards the
larger unbelted occupant pulse more than the thorax channel penalises
it. -/
theorem unbelted_scores_below_belted :
    riskScore (unbeltedInputs 1) < riskScore (beltOnlyInputs 1) := by
  have hπl : (3.141592 : ℝ) ≤ π := Real.pi_gt_3141592.le
  have hπu : π ≤ 3.141593 := Real.pi_lt_3141593.le
  have hG : (0 : ℝ) < GRAVITY := by norm_num [GRAVITY]
  -- the belt-only evaluation at v = 1
  have hTb := beltOnly_T 1
  have hαb := beltOnly_alpha 1
  have hαnnb : 0 ≤ restraintTransferFactor (beltOnlyInputs 1) := by
    rw [hαb]; norm_num
  have hdvb := beltOnly_dv 1
  have hapb : peakAcceleration (deltaV (beltOnlyInputs 1)) 0.1 = 5 * π := by
    rw [hdvb]; unfold peakAcceleration; ring
  have hapnnb : 0 ≤ peakAcceleration (deltaV (beltOnlyInputs 1)) 0.1 := by
    rw [hapb]; positivity
  have hxbub : aOccPeak (beltOnlyInputs 1) ≤ 11.781 := by
    have h := aOccPeak_le hTb hαnnb hapnnb
    rw [hαb, hapb] at h
    nlinarith
  have hxblb : (11.778 : ℝ) ≤ aOccPeak (beltOnlyInputs 1) := by
    have h := aOccPeak_ge hTb hαnnb hapnnb
    rw [hαb, hapb] at h
    nlinarith
  have hxbnn : 0 ≤ aOccPeak (beltOnlyInputs 1) := by linarith
  have hHb : pHead (beltOnlyInputs 1) = 0 := by
    refine pHead_zero hTb hαnnb hapnnb ?_
    rw [hαb, hapb, div_le_iff hG]
    rw [show GRAVITY = 9.80665 from rfl]
    nlinarith
  have hnijb : nijOf (beltOnlyInputs 1) = 0 :=
    computeNij_zero_overrides _ _ _ rfl rfl
  have hNb := pNeck_of_nij_zero hnijb
  have hThb := pThorax_formula (beltOnly_mm 1)
    (mul_nonneg (by norm_num) hxbnn) (by nlinarith)
  have hFb := pFemur_formula (beltOnly_kn 1)
    (mul_nonneg (by norm_num) hxbnn) (by nlinarith)
  have hBb := pBaseline_formula hHb (beltOnly_cf 1) hNb hThb hFb
    (by norm_num) (by nlinarith) (by nlinarith)
  -- the unbelted evaluation at v = 1
  have hTu := unbelted_T 1
  have hαu := unbelted_alpha 1
  have hαnnu : 0 ≤ restraintTransferFactor (unbeltedInputs 1) := by
    rw [hαu]; norm_num
  have hdvu := unbelted_dv 1
  have hapu : peakAcceleration (deltaV (unbeltedInputs 1)) 0.1 = 5 * π := by
    rw [hdvu]; unfold peakAcceleration; ring
  have hapnnu : 0 ≤ peakAcceleration (deltaV (unbeltedInputs 1)) 0.1 := by
    rw [hapu]; positivity
  have hxuub : aOccPeak (unbeltedInputs 1) ≤ 16.4934 := by
    have h := aOccPeak_le hTu hαnnu hapnnu
    rw [hαu, hapu] at h
    nlinarith
  have hxulb : (16.4917 : ℝ) ≤ aOccPeak (unbeltedInputs 1) := by
    have h := aOccPeak_ge hTu hαnnu hapnnu
    rw [hαu, hapu] at h
    nlinarith
  have hxunn : 0 ≤ aOccPeak (unbeltedInputs 1) := by linarith
  have hHu : pHead (unbeltedInputs 1) = 0 := by
    refine pHead_zero hTu hαnnu hapnnu ?_
    rw [hαu, hapu, div_le_iff hG]
    rw [show GRAVITY = 9.80665 from rfl]
    nlinarith
  have hniju : nijOf (unbeltedInputs 1) = 0 :=
    computeNij_zero_overrides _ _ _ rfl rfl
  have hNu := pNeck_of_nij_zero hniju
  have hThu := pThorax_formula (unbelted_mm 1)
    (mul_nonneg (by norm_num) hxunn) (by nlinarith)
  have hFu := pFemur_formula (unbelted_kn 1)
    (mul_nonneg (by norm_num) hxunn) (by nlinarith)
  have hBu := pBaseline_formula hHu (unbelted_cf 1) hNu hThu hFu
    (by norm_num) (by nlinarith) (by nlinarith)
  -- compare
  unfold riskScore
  rw [hBb, hBu]
  have hD : (1 + Real.exp (-4.9522 + 0.1657 * (0.56 * aOccPeak (unbeltedInputs 1)))) *
        (1 + Real.exp (5.7949 + -0.7619 * (0.01 * aOccPeak (unbeltedInputs 1)))) <
      (1 + Real.exp (-4.9522 + 0.1657 * (0.56 * aOccPeak (beltOnlyInputs 1)))) *
        (1 + Real.exp (5.7949 + -0.7619 * (0.01 * aOccPeak (beltOnlyInputs 1)))) := by
    have hztu : -4.9522 + 0.1657 * (0.56 * aOccPeak (unbeltedInputs 1)) ≤
        -3.4217 := by nlinarith
    have hexp342 : (29.98 : ℝ) ≤ Real.exp 3.4217 := by
      rw [show (3.4217 : ℝ) = 3 + 0.4217 by norm_num, Real.exp_add]
      have ha := one_add_quarter_pow_le_exp 0.4217 (by norm_num)
      have hb : (1.4931 : ℝ) ≤ (1 + 0.4217 / 4) ^ (4 : ℕ) := by norm_num
      have hc : (1.4931 : ℝ) ≤ Real.exp 0.4217 := le_trans hb ha
      calc (29.98 : ℝ) ≤ 20.085 * 1.4931 := by norm_num
        _ ≤ Real.exp 3 * Real.exp 0.4217 :=
            mul_le_mul exp_three_gt.le hc (by norm_num) (Real.exp_pos 3).le
    have ha1 : Real.exp (-4.9522 + 0.1657 *
        (0.56 * aOccPeak (unbeltedInputs 1))) ≤ 0.0334 := by
      have h3 := Real.exp_le_exp.mpr hztu
      have h6 : (Real.exp 3.4217)⁻¹ ≤ (29.98 : ℝ)⁻¹ :=
        inv_le_inv_of_le (by norm_num) hexp342
      have h4 : Real.exp (-3.4217 : ℝ) ≤ 0.0334 := by
        rw [Real.exp_neg]
        calc (Real.exp 3.4217)⁻¹ ≤ (29.98 : ℝ)⁻¹ := h6
          _ ≤ 0.0334 := by norm_num
      linarith
    have hzfu : (5 : ℝ) ≤ 5.7949 + -0.7619 *
        (0.01 * aOccPeak (unbeltedInputs 1)) := by nlinarith
    have hb1 : (100 : ℝ) ≤ Real.exp (5.7949 + -0.7619 *
        (0.01 * aOccPeak (unbeltedInputs 1))) :=
      le_trans exp_five_gt.le (Real.exp_le_exp.mpr hzfu)
    have hdiff : (0.0358 : ℝ) ≤
        (5.7949 + -0.7619 * (0.01 * aOccPeak (beltOnlyInputs 1))) -
        (5.7949 + -0.7619 * (0.01 * aOccPeak (unbeltedInputs 1))) := by
      nlinarith
    have hsplit : Real.exp (5.7949 + -0.7619 * (0.01 * aOccPeak (beltOnlyInputs 1))) =
        Real.exp (5.7949 + -0.7619 * (0.01 * aOccPeak (unbeltedInputs 1))) *
          Real.exp ((5.7949 + -0.7619 * (0.01 * aOccPeak (beltOnlyInputs 1))) -
            (5.7949 + -0.7619 * (0.01 * aOccPeak (unbeltedInputs 1)))) := by
      rw [← Real.exp_add]
      ring_nf
    have hge := Real.add_one_le_exp
      ((5.7949 + -0.7619 * (0.01 * aOccPeak (beltOnlyInputs 1))) -
        (5.7949 + -0.7619 * (0.01 * aOccPeak (unbeltedInputs 1))))
    have hb0 : (1 + 0.0358) * Real.exp (5.7949 + -0.7619 *
        (0.01 * aOccPeak (unbeltedInputs 1))) ≤
        Real.exp (5.7949 + -0.7619 * (0.01 * aOccPeak (beltOnlyInputs 1))) := by
      calc (1 + 0.0358) * Real.exp (5.7949 + -0.7619 *
            (0.01 * aOccPeak (unbeltedInputs 1))) ≤
          (1 + ((5.7949 + -0.7619 * (0.01 * aOccPeak (beltOnlyInputs 1))) -
              (5.7949 + -0.7619 * (0.01 * aOccPeak (unbeltedInputs 1))))) *
            Real.exp (5.7949 + -0.7619 * (0.01 * aOccPeak (unbeltedInputs 1))) :=
            mul_le_mul_of_nonneg_right (by linarith)
              (Real.exp_pos (5.7949 + -0.7619 *
                (0.01 * aOccPeak (unbeltedInputs 1)))).le
        _ ≤ Real.exp ((5.7949 + -0.7619 * (0.01 * aOccPeak (beltOnlyInputs 1))) -
              (5.7949 + -0.7619 * (0.01 * aOccPeak (unbeltedInputs 1)))) *
            Real.exp (5.7949 + -0.7619 * (0.01 * aOccPeak (unbeltedInputs 1))) :=
            mul_le_mul_of_nonneg_right (by linarith)
              (Real.exp_pos (5.7949 + -0.7619 *
                (0.01 * aOccPeak (unbeltedInputs 1)))).le
        _ = Real.exp (5.7949 + -0.7619 * (0.01 * aOccPeak (beltOnlyInputs 1))) := by
            rw [hsplit]; ring
    exact denom_product_lt ha1 (by norm_num)
      (Real.exp_pos (-4.9522 + 0.1657 *
        (0.56 * aOccPeak (beltOnlyInputs 1)))).le hb1 hb0 (by norm_num)
  have hkey : 1 / (1 + Real.exp (-4.9522 + 0.1657 *
          (0.56 * aOccPeak (beltOnlyInputs 1)))) *
        (1 / (1 + Real.exp (5.7949 + -0.7619 *
          (0.01 * aOccPeak (beltOnlyInputs 1))))) <
      1 / (1 + Real.exp (-4.9522 + 0.1657 *
          (0.56 * aOccPeak (unbeltedInputs 1)))) *
        (1 / (1 + Real.exp (5.7949 + -0.7619 *
          (0.01 * aOccPeak (unbeltedInputs 1))))) := by
    rw [div_mul_div_comm, div_mul_div_comm, one_mul]
    exact one_div_lt_one_div_of_lt (by positivity) hD
  have hkeyN : 1 / (1 + Real.exp (-3.227)) *
        (1 / (1 + Real.exp (-4.9522 + 0.1657 *
            (0.56 * aOccPeak (beltOnlyInputs 1)))) *
          (1 / (1 + Real.exp (5.7949 + -0.7619 *
            (0.01 * aOccPeak (beltOnlyInputs 1)))))) <
      1 / (1 + Real.exp (-3.227)) *
        (1 / (1 + Real.exp (-4.9522 + 0.1657 *
            (0.56 * aOccPeak (unbeltedInputs 1)))) *
          (1 / (1 + Real.exp (5.7949 + -0.7619 *
            (0.01 * aOccPeak (unbeltedInputs 1)))))) :=
    mul_lt_mul_of_pos_left hkey (by positivity)
  have h75 := Real.rpow_lt_rpow (by positivity) hkeyN
    (by norm_num : (0 : ℝ) < 0.75)
  linarith [h75]

end Safety1st
